import Mathlib

/-!
Verification development for the crypto-news-aggregator repository
(src/scraper/crypto_news_scraper.py, src/scraper/storage.py).

The Python source is shallowly embedded: each fetch adapter becomes a pure
Lean function over an explicit environment that models the network client
(a client call either raises, modeled as Except.error, or returns a
response record); the date filter, sorter, HTML renderer and storage
dispatcher become pure functions on the normalized item type.  The Python
standard-library pieces the code relies on (datetime.fromisoformat,
datetime.isoformat, datetime.fromtimestamp, datetime comparison,
html.escape, str.lower, str.split, slicing) are modeled explicitly below,
restricted to the shapes this program exercises; each model notes the
restriction where one exists.
-/

set_option maxRecDepth 8192

namespace CryptoScraper

/-! ## Python string/value helpers -/

/-- Rendering of an optional string by a Python f-string: Python renders
the value None as the four characters None. -/
def pyStrOfOpt : Option String → String
  | none => "None"
  | some s => s

/-- Python truthiness of an optional string: None and the empty string are
falsy. -/
def pyTruthy : Option String → Bool
  | none => false
  | some s => s ≠ ""

/-- Python expression a or b on two optional strings: returns a unless a
is falsy (None or empty), in which case it returns b. -/
def pyOr2 (a b : Option String) : Option String :=
  match a with
  | none => b
  | some s => if s = "" then b else some s

/-- Python expression a or b where a is an optional string and b a string
(used for timestamp fallbacks such as created_at or now). -/
def pyOrOpt (a : Option String) (b : String) : String :=
  match a with
  | none => b
  | some s => if s = "" then b else s

/-- Python slicing s[:n] (by code point, as in Python). -/
def pySlice (n : Nat) (s : String) : String :=
  String.mk (s.data.take n)

/-- Everything before the first newline: Python s.split with a newline
separator, taking element 0. -/
def firstLine (s : String) : String :=
  String.mk (s.data.takeWhile (fun c => c ≠ '\n'))

/-- Python s.split on the slash character. -/
def pySplitSlash (s : String) : List String :=
  (s.data.splitOn '/').map String.mk

/-- Python str.lower, restricted to ASCII (the only case the program
exercises: format names such as JSON), written character-wise. -/
def pyLower (s : String) : String :=
  String.mk (s.data.map Char.toLower)

/-- The single-quote character, written by code point to keep the source
free of stray quote characters. -/
def quoteChar : Char := Char.ofNat 39

/-- Python html.escape of one character (quote=True default: ampersand,
angle brackets and both quote characters are replaced). -/
def escapeChar (c : Char) : String :=
  if c = '&' then "&amp;"
  else if c = '<' then "&lt;"
  else if c = '>' then "&gt;"
  else if c = '"' then "&quot;"
  else if c = quoteChar then "&#x27;"
  else String.singleton c

/-- Python html.escape (quote=True). -/
def htmlEscape (s : String) : String :=
  String.join (s.data.map escapeChar)

/-- Python s.replace of the character Z by +00:00, written at character
level (the pattern is a single character, so character-wise replacement
coincides with str.replace). -/
def replaceZ : List Char → List Char
  | [] => []
  | c :: r => if c = 'Z' then '+' :: '0' :: '0' :: ':' :: '0' :: '0' :: replaceZ r
              else c :: replaceZ r

/-! ## The datetime model

A Python datetime is a record of calendar fields plus an optional UTC
offset in minutes; offset none models a naive datetime, offset some o an
aware one (tzinfo timezone(timedelta(minutes := o))). -/

structure PyDatetime where
  year : Nat
  month : Nat
  day : Nat
  hour : Nat
  minute : Nat
  second : Nat
  microsecond : Nat
  offset : Option Int
  deriving DecidableEq

/-- Proleptic-Gregorian leap year test, as in Python's calendar rules. -/
def isLeap (y : Nat) : Bool :=
  (y % 4 = 0 && y % 100 ≠ 0) || y % 400 = 0

/-- Length of a month given the leap flag of its year. -/
def daysInMonthB (leap : Bool) (m : Nat) : Nat :=
  if m = 2 then (if leap then 29 else 28)
  else if m = 4 ∨ m = 6 ∨ m = 9 ∨ m = 11 then 30
  else 31

/-- Length of a year given its leap flag. -/
def daysInYearB (leap : Bool) : Nat :=
  if leap then 366 else 365

/-- Fuel-driven year scan: starting from year y with a day count d,
subtract whole years until the remainder is a day-of-year.  This models
the year extraction inside CPython's date arithmetic; the fuel is a bound
on the number of years traversed and is always supplied large enough. -/
def yearFromDaysF : Nat → Nat → Nat → Nat × Nat
  | 0, y, d => (y, d)
  | fuel + 1, y, d =>
    if d < daysInYearB (isLeap y) then (y, d)
    else yearFromDaysF fuel (y + 1) (d - daysInYearB (isLeap y))

/-- Fuel-driven month scan inside one year: from month m with day-of-year
remainder d, subtract whole months.  Fuel 11 always suffices. -/
def monthFromDaysF : Nat → Bool → Nat → Nat → Nat × Nat
  | 0, _, m, d => (m, d)
  | fuel + 1, leap, m, d =>
    if d < daysInMonthB leap m then (m, d)
    else monthFromDaysF fuel leap (m + 1) (d - daysInMonthB leap m)

/-- Python datetime.fromtimestamp(n, tz=timezone.utc) for a nonnegative
whole-second timestamp: the corresponding aware UTC datetime.
Fractional seconds and pre-epoch timestamps are not modeled (the program
only ever receives nonnegative reddit creation times here). -/
def fromtimestampUTC (n : Nat) : PyDatetime :=
  ⟨(yearFromDaysF 9000 1970 (n / 86400)).1,
   (monthFromDaysF 11 (isLeap (yearFromDaysF 9000 1970 (n / 86400)).1) 1
     (yearFromDaysF 9000 1970 (n / 86400)).2).1,
   (monthFromDaysF 11 (isLeap (yearFromDaysF 9000 1970 (n / 86400)).1) 1
     (yearFromDaysF 9000 1970 (n / 86400)).2).2 + 1,
   n % 86400 / 3600, n % 86400 / 60 % 60, n % 86400 % 60, 0, some 0⟩

/-- Days from year 1 January 1 to year y January 1 (CPython _ymd2ord year
part). -/
def daysBeforeYear (y : Nat) : Nat :=
  (y - 1) * 365 + (y - 1) / 4 - (y - 1) / 100 + (y - 1) / 400

/-- Days from January 1 to the first of month m (CPython _ymd2ord month
part). -/
def daysBeforeMonth (leap : Bool) (m : Nat) : Nat :=
  if m ≤ 1 then 0 else daysBeforeMonth leap (m - 1) + daysInMonthB leap (m - 1)

/-- Ordinal day count of a date, measured in days since 0001-01-01. -/
def toOrdinalDays (y m d : Nat) : Nat :=
  daysBeforeYear y + daysBeforeMonth (isLeap y) m + (d - 1)

/-- Day ordinal of 1970-01-01 (the epoch), in days since 0001-01-01. -/
def epochDays : Nat := 719162

/-- Wall-clock microseconds of a datetime relative to the epoch, ignoring
its offset: the quantity Python compares when both operands are naive. -/
def naiveMicros (d : PyDatetime) : Int :=
  ((toOrdinalDays d.year d.month d.day : Int) - (epochDays : Int)) * 86400000000
    + (d.hour : Int) * 3600000000 + (d.minute : Int) * 60000000
    + (d.second : Int) * 1000000 + (d.microsecond : Int)

/-- Epoch microseconds of an aware datetime (offset subtracted): the
quantity Python compares when both operands are aware. -/
def epochMicros (d : PyDatetime) : Int :=
  naiveMicros d - (d.offset.getD 0) * 60000000

/-- Rebuild a datetime from epoch microseconds us displayed at a fixed UTC
offset off (minutes).  Returns none when the result falls outside Python's
representable years 1..9999, mirroring the OverflowError of out-of-range
conversions. -/
def datetimeOfMicros (us off : Int) : Option PyDatetime :=
  let localUs := us + off * 60000000 + (epochDays : Int) * 86400000000
  if localUs < 0 then none
  else
    let l := localUs.toNat
    let days := l / 86400000000
    let rem := l % 86400000000
    let yd := yearFromDaysF 12000 1 days
    if yd.1 > 9999 then none
    else
      let md := monthFromDaysF 11 (isLeap yd.1) 1 yd.2
      some ⟨yd.1, md.1, md.2 + 1, rem / 3600000000, rem / 60000000 % 60,
            rem / 1000000 % 60, rem % 1000000, some off⟩

/-- A timezone is modeled as a function from an instant (epoch
microseconds) to its UTC offset in minutes at that instant; this is the
interface the code uses from zoneinfo.ZoneInfo objects. -/
def PyTz : Type := Int → Int

/-- Python aware_or_naive.astimezone(tz).  An aware datetime is converted
through its own offset; a naive one is interpreted in the system timezone
sys (resolved at its wall-clock reading), as CPython does.  Returns none
when the conversion overflows Python's year range. -/
def pyAstimezone (tz sys : PyTz) (d : PyDatetime) : Option PyDatetime :=
  let utcUs : Int :=
    match d.offset with
    | some o => naiveMicros d - o * 60000000
    | none => naiveMicros d - sys (naiveMicros d) * 60000000
  datetimeOfMicros utcUs (tz utcUs)

/-- The date triple of a datetime, as returned by Python date(). -/
def dateOf (d : PyDatetime) : Nat × Nat × Nat :=
  (d.year, d.month, d.day)

/-! ## ISO-8601 parsing (datetime.fromisoformat)

The model follows CPython's pre-3.11 fromisoformat, the dialect the code
is written against (it replaces a literal Z itself before parsing):
YYYY-MM-DD, optionally followed by one separator character and
HH[:MM[:SS[.fff or .ffffff]]], optionally followed by a +HH:MM or -HH:MM
offset.  Offsets carrying seconds are not modeled (never produced by the
program or its sources). -/

/-- Numeric value of a decimal digit character. -/
def digVal (c : Char) : Option Nat :=
  if '0' ≤ c ∧ c ≤ '9' then some (c.toNat - 48) else none

/-- Two-digit field. -/
def read2 : List Char → Option (Nat × List Char)
  | a :: b :: r =>
    match digVal a, digVal b with
    | some x, some y => some (10 * x + y, r)
    | _, _ => none
  | _ => none

/-- Four-digit field. -/
def read4 : List Char → Option (Nat × List Char)
  | a :: b :: c :: d :: r =>
    match digVal a, digVal b, digVal c, digVal d with
    | some x, some y, some z, some w => some (1000 * x + 100 * y + 10 * z + w, r)
    | _, _, _, _ => none
  | _ => none

/-- Expect one literal character. -/
def expectC (c : Char) : List Char → Option (List Char)
  | d :: r => if d = c then some r else none
  | [] => none

/-- Split a time string at the first sign character, as CPython does to
locate the offset part. -/
def splitTz : List Char → List Char × Option (Char × List Char)
  | [] => ([], none)
  | c :: r =>
    if c = '+' ∨ c = '-' then ([], some (c, r))
    else
      let p := splitTz r
      (c :: p.1, p.2)

/-- Fractional-second field: exactly three or six digits. -/
def readFrac (cs : List Char) : Option Nat :=
  match cs with
  | [a, b, c] =>
    match digVal a, digVal b, digVal c with
    | some x, some y, some z => some ((100 * x + 10 * y + z) * 1000)
    | _, _, _ => none
  | [a, b, c, d, e, f] =>
    match digVal a, digVal b, digVal c, digVal d, digVal e, digVal f with
    | some x, some y, some z, some u, some v, some w =>
      some (100000 * x + 10000 * y + 1000 * z + 100 * u + 10 * v + w)
    | _, _, _, _, _, _ => none
  | _ => none

/-- Parse HH[:MM[:SS[.frac]]]: after each two-digit field either the
string ends or the expected separator follows. -/
def parseHMSF (cs : List Char) : Option (Nat × Nat × Nat × Nat) :=
  (read2 cs).bind fun hp =>
    if hp.2 = [] then some (hp.1, 0, 0, 0)
    else
      (expectC ':' hp.2).bind fun r1 =>
        (read2 r1).bind fun mp =>
          if mp.2 = [] then some (hp.1, mp.1, 0, 0)
          else
            (expectC ':' mp.2).bind fun r2 =>
              (read2 r2).bind fun sp =>
                if sp.2 = [] then some (hp.1, mp.1, sp.1, 0)
                else
                  (expectC '.' sp.2).bind fun r3 =>
                    (readFrac r3).bind fun us => some (hp.1, mp.1, sp.1, us)

/-- Parse a +HH:MM / -HH:MM offset (sign already consumed). -/
def parseOffset (sgn : Char) (cs : List Char) : Option Int :=
  (read2 cs).bind fun ohp =>
    (expectC ':' ohp.2).bind fun r1 =>
      (read2 r1).bind fun omp =>
        if omp.2 = [] then
          if omp.1 ≤ 59 ∧ 60 * ohp.1 + omp.1 ≤ 1439 then
            some (if sgn = '-' then -(60 * ohp.1 + omp.1 : Int) else (60 * ohp.1 + omp.1 : Int))
          else none
        else none

/-- Full fromisoformat on a character list. -/
def parseIsoChars (cs : List Char) : Option PyDatetime :=
  (read4 cs).bind fun yp =>
    (expectC '-' yp.2).bind fun r2 =>
      (read2 r2).bind fun mop =>
        (expectC '-' mop.2).bind fun r4 =>
          (read2 r4).bind fun ddp =>
            if yp.1 < 1 ∨ mop.1 < 1 ∨ mop.1 > 12 ∨ ddp.1 < 1 ∨
               ddp.1 > daysInMonthB (isLeap yp.1) mop.1 then none
            else
              match ddp.2 with
              | [] => some ⟨yp.1, mop.1, ddp.1, 0, 0, 0, 0, none⟩
              | _sep :: tr =>
                (parseHMSF (splitTz tr).1).bind fun tf =>
                  if tf.1 > 23 ∨ tf.2.1 > 59 ∨ tf.2.2.1 > 59 then none
                  else
                    match (splitTz tr).2 with
                    | none =>
                      some ⟨yp.1, mop.1, ddp.1, tf.1, tf.2.1, tf.2.2.1, tf.2.2.2, none⟩
                    | some so =>
                      (parseOffset so.1 so.2).bind fun o =>
                        some ⟨yp.1, mop.1, ddp.1, tf.1, tf.2.1, tf.2.2.1, tf.2.2.2, some o⟩

/-- datetime.fromisoformat on a string. -/
def pyFromIso (s : String) : Option PyDatetime :=
  parseIsoChars s.data

/-- The parse the program itself performs on a stored published value:
replace Z by +00:00, then fromisoformat (crypto_news_scraper.py lines
254-255 and 302-304). -/
def pyParseDate (s : String) : Option PyDatetime :=
  parseIsoChars (replaceZ s.data)

/-- The spec's invariant predicate: the string parses back (under the
program's own Z handling) into a timezone-aware instant. -/
def parsesTZAware (s : String) : Bool :=
  match pyParseDate s with
  | some d => d.offset.isSome
  | none => false

/-! ## ISO-8601 formatting (datetime.isoformat) -/

/-- One decimal digit character for k, for k already reduced below 10. -/
def digCharAux : Nat → Char
  | 0 => '0' | 1 => '1' | 2 => '2' | 3 => '3' | 4 => '4'
  | 5 => '5' | 6 => '6' | 7 => '7' | 8 => '8' | _ => '9'

/-- Last decimal digit of n, as a character. -/
def digChar (n : Nat) : Char := digCharAux (n % 10)

/-- Two-digit zero-padded field. -/
def pad2 (n : Nat) : List Char := [digChar (n / 10), digChar n]

/-- Four-digit zero-padded field. -/
def pad4 (n : Nat) : List Char :=
  [digChar (n / 1000), digChar (n / 100), digChar (n / 10), digChar n]

/-- Six-digit zero-padded field. -/
def pad6 (n : Nat) : List Char :=
  [digChar (n / 100000), digChar (n / 10000), digChar (n / 1000),
   digChar (n / 100), digChar (n / 10), digChar n]

/-- Fraction part of isoformat output: omitted when microsecond is 0. -/
def fracChars (us : Nat) : List Char :=
  if us = 0 then [] else '.' :: pad6 us

/-- Offset part of isoformat output. -/
def offChars : Option Int → List Char
  | none => []
  | some o => (if o < 0 then '-' else '+') :: (pad2 (o.natAbs / 60) ++ ':' :: pad2 (o.natAbs % 60))

/-- Character sequence of datetime.isoformat. -/
def isoChars (d : PyDatetime) : List Char :=
  pad4 d.year ++ '-' :: (pad2 d.month ++ '-' :: (pad2 d.day ++ 'T' ::
    (pad2 d.hour ++ ':' :: (pad2 d.minute ++ ':' ::
      (pad2 d.second ++ (fracChars d.microsecond ++ offChars d.offset))))))

/-- datetime.isoformat. -/
def pyIsoformat (d : PyDatetime) : String := String.mk (isoChars d)

/-! ## The Item data model

Items are the dictionaries built by the adapters.  Every adapter writes
all six keys, with string values except possibly url: the github adapter
can store Python None there (when a raw record has neither html_url nor
url).  The url field therefore distinguishes a missing key, a stored
None, and a stored string, because dict.get treats the first differently
from the other two. -/

inductive UrlField where
  | absent
  | null
  | str (s : String)
  deriving DecidableEq

/-- Python item.get(key, dflt) on the url field: the default applies only
when the key is absent; a stored None is returned as None. -/
def UrlField.get (f : UrlField) (dflt : String) : Option String :=
  match f with
  | .absent => some dflt
  | .null => none
  | .str s => some s

/-- A stored url value coming from a Python expression of type
Optional[str]. -/
def urlFieldOfOpt : Option String → UrlField
  | none => .null
  | some s => .str s

structure Item where
  platform : String
  source : String
  title : String
  url : UrlField
  summary : String
  published : String
  deriving DecidableEq

/-! ## Twitter adapter (fetch_twitter_posts, lines 40-88)

The two HTTP calls per username are modeled by an environment: each call
either raises (Except.error, covering network errors and malformed-JSON
key errors) or returns a status code together with the extracted payload.
The current fetch time is passed in as the string now, standing for
datetime.utcnow().replace(tzinfo=timezone.utc).isoformat(). -/

structure TwUserResp where
  status : Nat
  userId : String

structure RawTweet where
  text : Option String
  id : Option String
  created_at : Option String

structure TwTweetsResp where
  status : Nat
  tweets : List RawTweet

structure TwitterEnv where
  userByName : String → Except String TwUserResp
  tweetsOf : String → Nat → Except String TwTweetsResp

/-- Normalization of one raw tweet (lines 70-85). -/
def normTweet (username : String) (now : String) (t : RawTweet) : Item :=
  let text := t.text.getD ""
  ⟨"twitter", username,
   if text.length > 100 then pySlice 100 text else text,
   .str ("https://twitter.com/" ++ username ++ "/status/" ++ pyStrOfOpt t.id),
   text,
   pyOrOpt t.created_at now⟩

/-- Processing of one username inside the loop body (lines 48-87): any
raised exception or non-200 status yields the empty contribution. -/
def twProcess (env : TwitterEnv) (maxItems : Nat) (now : String) (username : String) : List Item :=
  match env.userByName username with
  | .error _ => []
  | .ok ur =>
    if ur.status ≠ 200 then []
    else
      match env.tweetsOf ur.userId maxItems with
      | .error _ => []
      | .ok tr =>
        if tr.status ≠ 200 then []
        else tr.tweets.map (normTweet username now)

/-- fetch_twitter_posts.  The bearer token argument stands for the value
after the environment-variable fallback; a falsy token short-circuits the
whole adapter. -/
def fetch_twitter_posts (usernames : List String) (env : TwitterEnv) (maxItems : Nat)
    (now : String) (bearer : Option String) : List Item :=
  if pyTruthy bearer then
    usernames.foldl (fun acc u => acc ++ twProcess env maxItems now u) []
  else []

/-! ## Reddit adapter (fetch_reddit_posts, lines 91-124)

praw.Reddit construction and each subreddit listing are modeled by the
environment; a listing call either raises or returns the submissions. -/

structure RawSubmission where
  title : String
  selftext : String
  url : String
  created_utc : Nat

structure RedditEnv where
  init : Except String Unit
  subs : String → Nat → Except String (List RawSubmission)

/-- Normalization of one submission (lines 109-121). -/
def normSubmission (subredditName : String) (s : RawSubmission) : Item :=
  ⟨"reddit", "r/" ++ subredditName,
   s.title,
   .str s.url,
   if s.selftext = "" then "" else pySlice 200 s.selftext,
   pyIsoformat (fromtimestampUTC s.created_utc)⟩

/-- Processing of one subreddit inside the loop body (lines 105-123). -/
def redProcess (env : RedditEnv) (maxItems : Nat) (subredditName : String) : List Item :=
  match env.subs subredditName maxItems with
  | .error _ => []
  | .ok submissions => submissions.map (normSubmission subredditName)

/-- fetch_reddit_posts.  The credential arguments stand for the values
after the environment-variable fallback; falsy credentials or a failing
praw.Reddit construction short-circuit the whole adapter. -/
def fetch_reddit_posts (subreddits : List String) (env : RedditEnv) (maxItems : Nat)
    (clientId clientSecret : Option String) : List Item :=
  if pyTruthy clientId && pyTruthy clientSecret then
    match env.init with
    | .error _ => []
    | .ok _ => subreddits.foldl (fun acc u => acc ++ redProcess env maxItems u) []
  else []

/-! ## RSS adapter (fetch_rss_feeds, lines 127-158) -/

structure TimeTuple where
  y : Nat
  mo : Nat
  d : Nat
  h : Nat
  mi : Nat
  s : Nat

structure RawEntry where
  title : Option String
  link : Option String
  summary : Option String
  description : Option String
  published_parsed : Option TimeTuple

structure ParsedFeed where
  entries : List RawEntry

/-- The datetime constructor datetime(y, mo, d, h, mi, s,
tzinfo=timezone.utc): validates every field and raises (none) otherwise,
as the except branch of lines 139-143 expects. -/
def pyDatetimeMk (t : TimeTuple) : Option PyDatetime :=
  if 1 ≤ t.y ∧ t.y ≤ 9999 ∧ 1 ≤ t.mo ∧ t.mo ≤ 12 ∧ 1 ≤ t.d ∧
     t.d ≤ daysInMonthB (isLeap t.y) t.mo ∧ t.h ≤ 23 ∧ t.mi ≤ 59 ∧ t.s ≤ 59 then
    some ⟨t.y, t.mo, t.d, t.h, t.mi, t.s, 0, some 0⟩
  else none

/-- Normalization of one feed entry (lines 134-155). -/
def normEntry (sourceName : String) (now : String) (e : RawEntry) : Item :=
  ⟨"rss", sourceName,
   e.title.getD "",
   .str (e.link.getD ""),
   (let s1 := e.summary.getD ""
    if s1 = "" then e.description.getD "" else s1),
   (match e.published_parsed with
    | none => now
    | some t =>
      match pyDatetimeMk t with
      | some dt => pyIsoformat dt
      | none => now)⟩

/-- Processing of one feed inside the loop body (lines 130-157);
feedparser.parse is modeled by the environment keyed on the feed url. -/
def rssProcess (env : String → Except String ParsedFeed) (maxItems : Nat) (now : String)
    (feed : String × String) : List Item :=
  match env feed.2 with
  | .error _ => []
  | .ok pf => (pf.entries.take maxItems).map (normEntry feed.1 now)

/-- fetch_rss_feeds; the feed dict is a list of (source name, url) pairs
in insertion order. -/
def fetch_rss_feeds (feedMap : List (String × String)) (env : String → Except String ParsedFeed)
    (maxItems : Nat) (now : String) : List Item :=
  feedMap.foldl (fun acc f => acc ++ rssProcess env maxItems now f) []

/-! ## GitHub adapter (fetch_github_updates, lines 161-244)

Each of the two GitMCP endpoints per repository either raises or returns
a status code plus a body; a body that is not JSON is modeled as json =
none and parsed as the empty list, exactly as lines 181-185/216-220. -/

structure RawCommit where
  message : String
  html_url : Option String
  url : Option String
  date : Option String

structure RawRelease where
  name : Option String
  tag_name : Option String
  html_url : Option String
  url : Option String
  body : Option String
  published_at : Option String

structure GhResp (α : Type) where
  status : Nat
  json : Option (List α)

structure GithubEnv where
  commits : String → String → Nat → Except String (GhResp RawCommit)
  releases : String → String → Nat → Except String (GhResp RawRelease)

/-- Items of one raw commit (lines 186-204): a commit whose message's
first line is empty is skipped. -/
def normCommitItems (repoFull : String) (now : String) (c : RawCommit) : List Item :=
  if firstLine c.message = "" then []
  else
    [⟨"github", repoFull, firstLine c.message,
      urlFieldOfOpt (pyOr2 c.html_url c.url),
      firstLine c.message,
      pyOrOpt c.date now⟩]

/-- Items of one raw release (lines 221-237): a release with falsy name
and tag is skipped; the body is truncated to 200 characters. -/
def normReleaseItems (repoFull : String) (now : String) (r : RawRelease) : List Item :=
  match pyOr2 r.name r.tag_name with
  | none => []
  | some t =>
    if t = "" then []
    else
      [⟨"github", repoFull, t,
        urlFieldOfOpt (pyOr2 r.html_url r.url),
        (let b := r.body.getD ""
         if b = "" then "" else pySlice 200 b),
        pyOrOpt r.published_at now⟩]

/-- The commits half of one repository's loop body (lines 176-210). -/
def ghCommitsPart (env : GithubEnv) (maxItems : Nat) (now : String)
    (repoFull owner repo : String) : List Item :=
  match env.commits owner repo maxItems with
  | .error _ => []
  | .ok resp =>
    if resp.status ≠ 200 then []
    else (resp.json.getD []).flatMap (normCommitItems repoFull now)

/-- The releases half of one repository's loop body (lines 212-243). -/
def ghReleasesPart (env : GithubEnv) (maxItems : Nat) (now : String)
    (repoFull owner repo : String) : List Item :=
  match env.releases owner repo maxItems with
  | .error _ => []
  | .ok resp =>
    if resp.status ≠ 200 then []
    else ((resp.json.getD []).take maxItems).flatMap (normReleaseItems repoFull now)

/-- Processing of one repository string (lines 169-243): a repository
string that does not split into exactly owner/repo is skipped. -/
def ghProcess (env : GithubEnv) (maxItems : Nat) (now : String) (repoFull : String) : List Item :=
  match pySplitSlash repoFull with
  | [owner, repo] =>
    ghCommitsPart env maxItems now repoFull owner repo
      ++ ghReleasesPart env maxItems now repoFull owner repo
  | _ => []

/-- fetch_github_updates (the token argument only affects request headers
and is omitted from the model). -/
def fetch_github_updates (repos : List String) (env : GithubEnv) (maxItems : Nat)
    (now : String) : List Item :=
  repos.foldl (fun acc r => acc ++ ghProcess env maxItems now r) []

/-! ## Date filter (filter_today, lines 247-264)

The two snapshots the function takes of the current moment are passed
explicitly: today is datetime.now(ZoneInfo(tz_name)).date() and nowUtc is
datetime.utcnow().replace(tzinfo=timezone.utc), both read at call time.
tz is the target ZoneInfo and sys the system timezone used by Python when
astimezone is applied to a naive datetime. -/

def filter_today (tz sys : PyTz) (today : Nat × Nat × Nat) (nowUtc : PyDatetime)
    (results : List Item) : List Item :=
  results.filter fun item =>
    let dt := (pyParseDate item.published).getD nowUtc
    let localDt := (pyAstimezone tz sys dt).getD dt
    dateOf localDt == today

/-! ## HTML generation (generate_html, lines 267-287)

The model returns the text written to the file. -/

/-- The list line written for one item (lines 277-284): title, platform
and source pass through html.escape; the url does not. -/
def itemLi (item : Item) : String :=
  "  <li><a href=\x27" ++ pyStrOfOpt (item.url.get "#")
    ++ "\x27 target=\x27_blank\x27>" ++ htmlEscape item.title
    ++ "</a> - " ++ htmlEscape item.platform
    ++ " (" ++ htmlEscape item.source ++ ")</li>\n"

/-- Full document text produced by generate_html; todayStr stands for the
formatted current date in the configured timezone. -/
def generate_html (results : List Item) (todayStr : String) : String :=
  "<html><head><meta charset=\x27UTF-8\x27><title>Crypto News</title></head><body>\n"
    ++ "<h1>Crypto News for " ++ todayStr ++ "</h1>\n"
    ++ "<ul>\n"
    ++ String.join (results.map itemLi)
    ++ "</ul>\n"
    ++ "</body></html>\n"

/-! ## Sort step (main, lines 302-307)

results.sort(key=_parse_date, reverse=True) is modeled as a stable
descending insertion sort whose element comparison is Python datetime
comparison: defined between two naive or two aware datetimes, raising
TypeError between a naive and an aware one.  The model agrees with
CPython whenever all keys are pairwise comparable (any correct stable
sort then produces the same list) and on two-element lists (CPython
compares the unique pair). -/

/-- Python comparison a < b on datetimes. -/
def pyLtB (a b : PyDatetime) : Except String Bool :=
  match a.offset, b.offset with
  | none, none => .ok (decide (naiveMicros a < naiveMicros b))
  | some _, some _ => .ok (decide (epochMicros a < epochMicros b))
  | _, _ => .error "TypeError: cant compare offset-naive and offset-aware datetimes"

/-- The sort key _parse_date (lines 302-306): parse published with Z
replaced, falling back to the aware current UTC instant. -/
def sortKey (nowUtc : PyDatetime) (item : Item) : PyDatetime :=
  (pyParseDate item.published).getD nowUtc

/-- Insert one item into a descending-sorted list, comparing keys with
Python datetime comparison; the item lands before the first element whose
key is not greater, preserving stability for equal keys. -/
def insOneE (key : Item → PyDatetime) (a : Item) : List Item → Except String (List Item)
  | [] => .ok [a]
  | b :: bs =>
    match pyLtB (key a) (key b) with
    | .error e => .error e
    | .ok true =>
      match insOneE key a bs with
      | .error e => .error e
      | .ok r => .ok (b :: r)
    | .ok false => .ok (a :: b :: bs)

/-- Stable descending insertion sort with fallible comparison. -/
def sortDescE (key : Item → PyDatetime) : List Item → Except String (List Item)
  | [] => .ok []
  | a :: rest =>
    match sortDescE key rest with
    | .error e => .error e
    | .ok r => insOneE key a r

/-- The sort statement of main (line 307). -/
def sortStep (nowUtc : PyDatetime) (results : List Item) : Except String (List Item) :=
  sortDescE (sortKey nowUtc) results

/-! ## Storage (storage.py, save_results)

The model returns the list of file writes performed, or the raised
ValueError.  Directory creation is a side effect outside the data
contract and is not represented. -/

inductive WriteOp where
  | json (path : String) (results : List Item)
  | csv (path : String) (results : List Item)
  deriving DecidableEq

/-- The two conditional writes at the end of save_results (lines 28-39):
a falsy (None or empty) path suppresses the corresponding write; JSON is
written before CSV. -/
def writeOps (results : List Item) (jsonPath csvPath : Option String) : List WriteOp :=
  (match jsonPath with
   | some p => if p = "" then [] else [WriteOp.json p results]
   | none => [])
    ++ (match csvPath with
        | some p => if p = "" then [] else [WriteOp.csv p results]
        | none => [])

/-- save_results (storage.py lines 1-39).  When output_dir is truthy the
lowercased output_format selects the default path, and anything other
than json or csv raises ValueError; when output_dir is absent or empty
the format argument is never examined. -/
def save_results (results : List Item) (jsonPath csvPath outputDir : Option String)
    (outputFormat : String) : Except String (List WriteOp) :=
  match outputDir with
  | some dir =>
    if dir = "" then .ok (writeOps results jsonPath csvPath)
    else if pyLower outputFormat = "json" then
      .ok (writeOps results (some (dir ++ "/latest.json")) csvPath)
    else if pyLower outputFormat = "csv" then
      .ok (writeOps results jsonPath (some (dir ++ "/latest.csv")))
    else .error "Invalid output_format; must be \x27json\x27 or \x27csv\x27"
  | none => .ok (writeOps results jsonPath csvPath)

/-! ## Failure predicates for the fault-isolation claim

An identifier fails, in the sense of the spec's fault-isolation clause,
when the underlying client raises or returns a non-success response while
processing it (for github: both endpoints, or an unsplittable repository
string). -/

def twFails (env : TwitterEnv) (mx : Nat) (u : String) : Bool :=
  match env.userByName u with
  | .error _ => true
  | .ok ur =>
    if ur.status ≠ 200 then true
    else
      match env.tweetsOf ur.userId mx with
      | .error _ => true
      | .ok tr => tr.status ≠ 200

def redFails (env : RedditEnv) (mx : Nat) (u : String) : Bool :=
  match env.subs u mx with
  | .error _ => true
  | .ok _ => false

def rssFails (env : String → Except String ParsedFeed) (feedUrl : String) : Bool :=
  match env feedUrl with
  | .error _ => true
  | .ok _ => false

def ghCommitsFail (env : GithubEnv) (mx : Nat) (owner repo : String) : Bool :=
  match env.commits owner repo mx with
  | .error _ => true
  | .ok r => r.status ≠ 200

def ghReleasesFail (env : GithubEnv) (mx : Nat) (owner repo : String) : Bool :=
  match env.releases owner repo mx with
  | .error _ => true
  | .ok r => r.status ≠ 200

def ghFails (env : GithubEnv) (mx : Nat) (repoFull : String) : Bool :=
  match pySplitSlash repoFull with
  | [owner, repo] =>
    ghCommitsFail env mx owner repo && ghReleasesFail env mx owner repo
  | _ => true

/-! ## Well-formedness predicates on upstream timestamps

The twitter and github adapters copy upstream timestamp strings into
published verbatim; these predicates say every such string delivered by
the environment (when present and nonempty) itself parses as a
timezone-aware instant, and for reddit that the delivered creation times
stay below Python's year-9999 range. -/

def twEnvTimesOk (env : TwitterEnv) (mx : Nat) : Prop :=
  ∀ u ur tr t, env.userByName u = .ok ur → env.tweetsOf ur.userId mx = .ok tr →
    t ∈ tr.tweets → ∀ s, t.created_at = some s → s ≠ "" → parsesTZAware s = true

def ghEnvTimesOk (env : GithubEnv) (mx : Nat) : Prop :=
  (∀ o r resp c, env.commits o r mx = .ok resp → c ∈ resp.json.getD [] →
     ∀ s, c.date = some s → s ≠ "" → parsesTZAware s = true) ∧
  (∀ o r resp rel, env.releases o r mx = .ok resp → rel ∈ resp.json.getD [] →
     ∀ s, rel.published_at = some s → s ≠ "" → parsesTZAware s = true)

def redEnvEpochOk (env : RedditEnv) (mx : Nat) : Prop :=
  ∀ u subsList sub, env.subs u mx = .ok subsList → sub ∈ subsList →
    sub.created_utc ≤ 253202544000

/-! ## Concrete instances used in counterexamples and witnesses -/

/-- A fetch-time string (an aware UTC isoformat instant). -/
def nowS : String := "2024-01-02T03:04:05+00:00"

/-- The corresponding aware UTC datetime. -/
def nowDt : PyDatetime := ⟨2024, 1, 2, 3, 4, 5, 0, some 0⟩

/-- An item whose stored url is Python None, as the github adapter
produces when a raw record carries neither html_url nor url. -/
def nullUrlItem : Item :=
  ⟨"github", "o/r", "t", .null, "t", "2024-01-02T00:00:00+00:00"⟩

/-- An item whose url breaks out of the single-quoted href attribute. -/
def evilUrlItem : Item :=
  ⟨"twitter", "s", "t", .str "#\x27 onclick=\x27alert(1)", "t", "2024-01-02T00:00:00+00:00"⟩

/-- A commit message whose first line has 201 characters. -/
def longMsg : String := String.mk (List.replicate 201 'a')

/-- A github environment delivering one commit with that long message and
no releases. -/
def ghEnvLongCommit : GithubEnv :=
  ⟨fun _ _ _ => .ok ⟨200, some [⟨longMsg, none, none, some "2024-01-02T00:00:00+00:00"⟩]⟩,
   fun _ _ _ => .ok ⟨200, some []⟩⟩

/-- A twitter environment where looking up the username bad raises and
every other username yields one tweet. -/
def twEnvFail : TwitterEnv :=
  ⟨fun u => if u = "bad" then .error "boom" else .ok ⟨200, "uid"⟩,
   fun _ _ => .ok ⟨200, [⟨some "hello", some "1", some "2024-01-02T00:00:00+00:00"⟩]⟩⟩

/-- A reddit environment where the subreddit bad raises. -/
def redEnvFail : RedditEnv :=
  ⟨.ok (),
   fun u _ => if u = "bad" then .error "boom" else .ok [⟨"t", "", "u", 1700000000⟩]⟩

/-- An RSS environment where the feed url bad raises. -/
def rssEnvFail : String → Except String ParsedFeed :=
  fun u => if u = "bad" then .error "boom"
           else .ok ⟨[⟨some "t", some "l", some "s", none, none⟩]⟩

/-- A github environment where both endpoints raise for owner bad. -/
def ghEnvFail : GithubEnv :=
  ⟨fun o _ _ => if o = "bad" then .error "boom" else .ok ⟨200, some []⟩,
   fun o _ _ => if o = "bad" then .error "boom" else .ok ⟨200, some []⟩⟩

/-- A twitter environment delivering one tweet whose created_at is the
unparsable string garbage. -/
def twEnvGarbage : TwitterEnv :=
  ⟨fun _ => .ok ⟨200, "uid"⟩,
   fun _ _ => .ok ⟨200, [⟨some "hi", some "1", some "garbage"⟩]⟩⟩

/-- A constant twitter environment with one well-timestamped tweet. -/
def twEnvC2 : TwitterEnv :=
  ⟨fun _ => .ok ⟨200, "uid"⟩,
   fun _ _ => .ok ⟨200, [⟨some "hi", some "1", some "2024-01-02T00:00:00+00:00"⟩]⟩⟩

/-- A constant github environment with one commit and one release, both
well timestamped. -/
def ghEnvC2 : GithubEnv :=
  ⟨fun _ _ _ => .ok ⟨200, some [⟨"m", some "u", none, some "2024-01-02T00:00:00+00:00"⟩]⟩,
   fun _ _ _ => .ok ⟨200, some [⟨some "v1", none, some "u", none, some "b", some "2024-01-02T00:00:00Z"⟩]⟩⟩

/-- A constant reddit environment with one submission. -/
def redEnvC2 : RedditEnv :=
  ⟨.ok (), fun _ _ => .ok [⟨"t", "body", "u", 1700000000⟩]⟩

/-- A constant RSS environment with one entry carrying a parsed time
tuple and one entry without. -/
def rssEnvC2 : String → Except String ParsedFeed :=
  fun _ => .ok ⟨[⟨some "t", some "l", some "s", none, some ⟨2024, 1, 2, 3, 4, 5⟩⟩,
                 ⟨some "t2", some "l2", none, some "d", none⟩]⟩

/-- An item whose published string parses to a naive datetime. -/
def itemNaive : Item :=
  ⟨"rss", "s", "t", .str "u", "", "2024-01-03T00:00:00"⟩

/-- An item whose published string does not parse at all, so its sort key
falls back to the aware current instant. -/
def itemGarbage : Item :=
  ⟨"rss", "s", "t", .str "u", "", "garbage"⟩

/-- An item with an aware published string. -/
def itemAware : Item :=
  ⟨"rss", "s", "t", .str "u", "", "2024-01-01T10:00:00+00:00"⟩

/-- A second aware item, older than itemAware. -/
def itemAware2 : Item :=
  ⟨"reddit", "r/x", "t2", .str "u2", "", "2023-12-31T10:00:00Z"⟩

/-! ## General helper lemmas -/

theorem foldl_append_eq_flatMap {α β : Type} (f : α → List β) (l : List α) (acc : List β) :
    l.foldl (fun a x => a ++ f x) acc = acc ++ l.flatMap f := by
  induction l generalizing acc with
  | nil => simp
  | cons a t ih => simp [ih]

theorem filter_idem {α : Type} (p : α → Bool) (l : List α) :
    (l.filter p).filter p = l.filter p := by
  induction l with
  | nil => rfl
  | cons a t ih =>
    by_cases h : p a = true
    · simp [List.filter_cons, h, ih]
    · simp [List.filter_cons, h, ih]

theorem mem_foldl_append {α : Type} (f : α → List Item) (l : List α) (x : Item)
    (h : x ∈ l.foldl (fun acc u => acc ++ f u) []) : ∃ u, u ∈ l ∧ x ∈ f u := by
  rw [foldl_append_eq_flatMap] at h
  simp only [List.nil_append] at h
  simpa using List.mem_flatMap.mp h

theorem pySlice_length_le (n : Nat) (s : String) : (pySlice n s).length ≤ n := by
  show (s.data.take n).length ≤ n
  rw [List.length_take]
  exact min_le_left _ _

/-! ## Digit and field lemmas for the isoformat round trip -/

theorem digVal_digCharAux : ∀ k, k < 10 → digVal (digCharAux k) = some k := by decide

theorem digVal_digChar (n : Nat) : digVal (digChar n) = some (n % 10) :=
  digVal_digCharAux (n % 10) (Nat.mod_lt n (by omega))

theorem digCharAux_not_sign : ∀ k, k < 10 → ¬(digCharAux k = '+' ∨ digCharAux k = '-') := by
  decide

theorem digChar_not_sign (n : Nat) : ¬(digChar n = '+' ∨ digChar n = '-') :=
  digCharAux_not_sign (n % 10) (Nat.mod_lt n (by omega))

theorem digCharAux_ne_Z : ∀ k, k < 10 → digCharAux k ≠ 'Z' := by decide

theorem digChar_ne_Z (n : Nat) : digChar n ≠ 'Z' :=
  digCharAux_ne_Z (n % 10) (Nat.mod_lt n (by omega))

theorem read2_pad2 (n : Nat) (r : List Char) (h : n ≤ 99) : read2 (pad2 n ++ r) = some (n, r) := by
  have e : 10 * (n / 10 % 10) + n % 10 = n := by omega
  simp only [pad2, List.cons_append, List.nil_append, read2, digVal_digChar, e]

theorem read4_pad4 (n : Nat) (r : List Char) (h : n ≤ 9999) :
    read4 (pad4 n ++ r) = some (n, r) := by
  have e : 1000 * (n / 1000 % 10) + 100 * (n / 100 % 10) + 10 * (n / 10 % 10) + n % 10 = n := by
    omega
  simp only [pad4, List.cons_append, List.nil_append, read4, digVal_digChar, e]

theorem readFrac_pad6 (n : Nat) (h : n ≤ 999999) : readFrac (pad6 n) = some n := by
  have e : 100000 * (n / 100000 % 10) + 10000 * (n / 10000 % 10) + 1000 * (n / 1000 % 10)
      + 100 * (n / 100 % 10) + 10 * (n / 10 % 10) + n % 10 = n := by omega
  simp only [pad6, readFrac, digVal_digChar, e]

theorem expectC_cons (c : Char) (r : List Char) : expectC c (c :: r) = some r := by
  simp [expectC]

theorem splitTz_append (xs : List Char) (sgn : Char) (r : List Char)
    (hxs : ∀ c ∈ xs, ¬(c = '+' ∨ c = '-')) (hsgn : sgn = '+' ∨ sgn = '-') :
    splitTz (xs ++ sgn :: r) = (xs, some (sgn, r)) := by
  induction xs with
  | nil => simp [splitTz, hsgn]
  | cons c cs ih =>
    have hc := hxs c (List.mem_cons_self c cs)
    simp only [List.cons_append, splitTz, List.append_eq]
    rw [if_neg hc, ih (fun x hx => hxs x (List.mem_cons_of_mem c hx))]

theorem noPM_pad2 (n : Nat) : ∀ c ∈ pad2 n, ¬(c = '+' ∨ c = '-') := by
  intro c hc
  rcases List.mem_cons.mp hc with rfl | hc2
  · exact digChar_not_sign _
  rcases List.mem_cons.mp hc2 with rfl | hc3
  · exact digChar_not_sign _
  · simp at hc3

theorem noPM_pad6 (n : Nat) : ∀ c ∈ pad6 n, ¬(c = '+' ∨ c = '-') := by
  intro c hc
  simp only [pad6, List.mem_cons, List.not_mem_nil, or_false] at hc
  rcases hc with rfl | rfl | rfl | rfl | rfl | rfl <;> exact digChar_not_sign _

theorem noPM_cons {x : Char} {ys : List Char} (hx : ¬(x = '+' ∨ x = '-'))
    (hy : ∀ c ∈ ys, ¬(c = '+' ∨ c = '-')) : ∀ c ∈ x :: ys, ¬(c = '+' ∨ c = '-') := by
  intro c hc
  rcases List.mem_cons.mp hc with rfl | hc2
  · exact hx
  · exact hy c hc2

theorem noPM_append {xs ys : List Char} (hx : ∀ c ∈ xs, ¬(c = '+' ∨ c = '-'))
    (hy : ∀ c ∈ ys, ¬(c = '+' ∨ c = '-')) : ∀ c ∈ xs ++ ys, ¬(c = '+' ∨ c = '-') := by
  intro c hc
  rcases List.mem_append.mp hc with h | h
  · exact hx c h
  · exact hy c h

theorem noPM_fracChars (us : Nat) : ∀ c ∈ fracChars us, ¬(c = '+' ∨ c = '-') := by
  unfold fracChars
  split
  · intro c hc
    simp at hc
  · exact noPM_cons (by decide) (noPM_pad6 us)

theorem notZ_cons {x : Char} {ys : List Char} (hx : x ≠ 'Z') (hy : 'Z' ∉ ys) :
    'Z' ∉ x :: ys := by
  intro h
  rcases List.mem_cons.mp h with h1 | h2
  · exact hx h1.symm
  · exact hy h2

theorem notZ_append {xs ys : List Char} (hx : 'Z' ∉ xs) (hy : 'Z' ∉ ys) : 'Z' ∉ xs ++ ys := by
  intro h
  rcases List.mem_append.mp h with h | h
  · exact hx h
  · exact hy h

theorem notZ_pad2 (n : Nat) : 'Z' ∉ pad2 n :=
  notZ_cons (digChar_ne_Z _) (notZ_cons (digChar_ne_Z _) (List.not_mem_nil _))

theorem notZ_pad4 (n : Nat) : 'Z' ∉ pad4 n :=
  notZ_cons (digChar_ne_Z _) (notZ_cons (digChar_ne_Z _)
    (notZ_cons (digChar_ne_Z _) (notZ_cons (digChar_ne_Z _) (List.not_mem_nil _))))

theorem notZ_pad6 (n : Nat) : 'Z' ∉ pad6 n :=
  notZ_cons (digChar_ne_Z _) (notZ_cons (digChar_ne_Z _) (notZ_cons (digChar_ne_Z _)
    (notZ_cons (digChar_ne_Z _) (notZ_cons (digChar_ne_Z _)
      (notZ_cons (digChar_ne_Z _) (List.not_mem_nil _))))))

theorem notZ_fracChars (us : Nat) : 'Z' ∉ fracChars us := by
  unfold fracChars
  split
  · exact List.not_mem_nil _
  · exact notZ_cons (by decide) (notZ_pad6 us)

theorem notZ_offChars (o : Option Int) : 'Z' ∉ offChars o := by
  unfold offChars
  match o with
  | none => exact List.not_mem_nil _
  | some v =>
    refine notZ_cons ?_ (notZ_append (notZ_pad2 _) (notZ_cons (by decide) (notZ_pad2 _)))
    split <;> decide

theorem notZ_isoChars (d : PyDatetime) : 'Z' ∉ isoChars d := by
  unfold isoChars
  exact notZ_append (notZ_pad4 _) (notZ_cons (by decide)
    (notZ_append (notZ_pad2 _) (notZ_cons (by decide)
      (notZ_append (notZ_pad2 _) (notZ_cons (by decide)
        (notZ_append (notZ_pad2 _) (notZ_cons (by decide)
          (notZ_append (notZ_pad2 _) (notZ_cons (by decide)
            (notZ_append (notZ_pad2 _)
              (notZ_append (notZ_fracChars _) (notZ_offChars _))))))))))))

theorem replaceZ_of_not_mem (cs : List Char) (h : 'Z' ∉ cs) : replaceZ cs = cs := by
  induction cs with
  | nil => rfl
  | cons c r ih =>
    unfold replaceZ
    rw [if_neg (fun hc => h (by rw [← hc] at *; exact List.mem_cons_self c r)),
        ih (fun hr => h (List.mem_cons_of_mem c hr))]

theorem daysInMonthB_le (leap : Bool) (m : Nat) : daysInMonthB leap m ≤ 31 := by
  unfold daysInMonthB
  split
  · split <;> omega
  · split <;> omega

theorem splitTz_timeChars (h mi s us : Nat) (rest : List Char) :
    splitTz (pad2 h ++ ':' :: (pad2 mi ++ ':' :: (pad2 s ++ (fracChars us ++ '+' :: rest))))
      = (pad2 h ++ ':' :: (pad2 mi ++ ':' :: (pad2 s ++ fracChars us)), some ('+', rest)) := by
  have e : pad2 h ++ ':' :: (pad2 mi ++ ':' :: (pad2 s ++ (fracChars us ++ '+' :: rest)))
      = (pad2 h ++ ':' :: (pad2 mi ++ ':' :: (pad2 s ++ fracChars us))) ++ '+' :: rest := by
    simp [List.append_assoc]
  rw [e]
  exact splitTz_append _ '+' rest
    (noPM_append (noPM_pad2 h) (noPM_cons (by decide)
      (noPM_append (noPM_pad2 mi) (noPM_cons (by decide)
        (noPM_append (noPM_pad2 s) (noPM_fracChars us)))))) (Or.inl rfl)

theorem parseHMSF_timeChars (h mi s us : Nat) (hh : h ≤ 99) (hmi : mi ≤ 99) (hs : s ≤ 99)
    (hus : us ≤ 999999) :
    parseHMSF (pad2 h ++ ':' :: (pad2 mi ++ ':' :: (pad2 s ++ fracChars us)))
      = some (h, mi, s, us) := by
  by_cases h0 : us = 0
  · subst h0
    rw [show fracChars 0 = [] from rfl]
    unfold parseHMSF
    rw [read2_pad2 _ _ hh]
    simp only [Option.some_bind]
    rw [if_neg (by simp), expectC_cons]
    simp only [Option.some_bind]
    rw [read2_pad2 _ _ hmi]
    simp only [Option.some_bind]
    rw [if_neg (by simp), expectC_cons]
    simp only [Option.some_bind]
    rw [read2_pad2 _ _ hs]
    simp only [Option.some_bind]
    simp
  · rw [show fracChars us = '.' :: pad6 us from by unfold fracChars; rw [if_neg h0]]
    unfold parseHMSF
    rw [read2_pad2 _ _ hh]
    simp only [Option.some_bind]
    rw [if_neg (by simp), expectC_cons]
    simp only [Option.some_bind]
    rw [read2_pad2 _ _ hmi]
    simp only [Option.some_bind]
    rw [if_neg (by simp), expectC_cons]
    simp only [Option.some_bind]
    rw [read2_pad2 _ _ hs]
    simp only [Option.some_bind]
    rw [if_neg (by simp), expectC_cons]
    simp only [Option.some_bind]
    rw [readFrac_pad6 _ hus]
    simp only [Option.some_bind]

theorem parseOffset_zero : parseOffset '+' (pad2 0 ++ ':' :: pad2 0) = some 0 := by decide

/-- The isoformat output of a valid datetime carrying the UTC offset
parses back to the same datetime. -/
theorem parseIso_isoChars (y mo dd h mi s us : Nat)
    (hy1 : 1 ≤ y) (hy2 : y ≤ 9999) (hm1 : 1 ≤ mo) (hm2 : mo ≤ 12)
    (hd1 : 1 ≤ dd) (hd2 : dd ≤ daysInMonthB (isLeap y) mo)
    (hh : h ≤ 23) (hmi : mi ≤ 59) (hs : s ≤ 59) (hus : us ≤ 999999) :
    parseIsoChars (isoChars ⟨y, mo, dd, h, mi, s, us, some 0⟩)
      = some ⟨y, mo, dd, h, mi, s, us, some 0⟩ := by
  have hoff : offChars (some 0) = '+' :: (pad2 0 ++ ':' :: pad2 0) := by decide
  show parseIsoChars
      (pad4 y ++ '-' :: (pad2 mo ++ '-' :: (pad2 dd ++ 'T' ::
        (pad2 h ++ ':' :: (pad2 mi ++ ':' ::
          (pad2 s ++ (fracChars us ++ offChars (some 0)))))))) = _
  rw [hoff]
  unfold parseIsoChars
  rw [read4_pad4 _ _ hy2]
  simp only [Option.some_bind]
  rw [expectC_cons]
  simp only [Option.some_bind]
  rw [read2_pad2 _ _ (by omega : mo ≤ 99)]
  simp only [Option.some_bind]
  rw [expectC_cons]
  simp only [Option.some_bind]
  rw [read2_pad2 _ _ (by have := daysInMonthB_le (isLeap y) mo; omega : dd ≤ 99)]
  simp only [Option.some_bind]
  rw [if_neg (by
    simp only [not_or, not_lt]
    exact ⟨hy1, hm1, hm2, hd1, hd2⟩)]
  rw [splitTz_timeChars]
  rw [parseHMSF_timeChars h mi s us (by omega) (by omega) (by omega) hus]
  simp only [Option.some_bind]
  rw [if_neg (by simp only [not_or, not_lt]; exact ⟨hh, hmi, hs⟩)]
  rw [parseOffset_zero]
  simp only [Option.some_bind]

/-- pyIsoformat of a valid UTC-aware datetime satisfies the
parses-back-timezone-aware invariant. -/
theorem parsesTZAware_isoformat (y mo dd h mi s us : Nat)
    (hy1 : 1 ≤ y) (hy2 : y ≤ 9999) (hm1 : 1 ≤ mo) (hm2 : mo ≤ 12)
    (hd1 : 1 ≤ dd) (hd2 : dd ≤ daysInMonthB (isLeap y) mo)
    (hh : h ≤ 23) (hmi : mi ≤ 59) (hs : s ≤ 59) (hus : us ≤ 999999) :
    parsesTZAware (pyIsoformat ⟨y, mo, dd, h, mi, s, us, some 0⟩) = true := by
  unfold parsesTZAware pyParseDate pyIsoformat
  rw [show (String.mk (isoChars ⟨y, mo, dd, h, mi, s, us, some 0⟩)).data
        = isoChars ⟨y, mo, dd, h, mi, s, us, some 0⟩ from rfl]
  rw [replaceZ_of_not_mem _ (notZ_isoChars _)]
  rw [parseIso_isoChars y mo dd h mi s us hy1 hy2 hm1 hm2 hd1 hd2 hh hmi hs hus]
  rfl


/-! ## Calendar validity of the fromtimestamp construction -/

theorem daysInYearB_ge (leap : Bool) : 365 ≤ daysInYearB leap := by
  unfold daysInYearB
  split <;> omega

theorem yearFromDaysF_snd_lt : ∀ (fuel y d : Nat), d < 365 * fuel →
    (yearFromDaysF fuel y d).2 < daysInYearB (isLeap (yearFromDaysF fuel y d).1) := by
  intro fuel
  induction fuel with
  | zero => intro y d hd; exact absurd hd (by omega)
  | succ f ih =>
    intro y d hd
    simp only [yearFromDaysF]
    by_cases hlt : d < daysInYearB (isLeap y)
    · rw [if_pos hlt]
      exact hlt
    · rw [if_neg hlt]
      exact ih _ _ (by have := daysInYearB_ge (isLeap y); omega)

theorem yearFromDaysF_fst_le : ∀ (fuel y d : Nat), (yearFromDaysF fuel y d).1 ≤ y + d / 365 := by
  intro fuel
  induction fuel with
  | zero => intro y d; exact Nat.le_add_right y _
  | succ f ih =>
    intro y d
    simp only [yearFromDaysF]
    by_cases hlt : d < daysInYearB (isLeap y)
    · rw [if_pos hlt]
      exact Nat.le_add_right y _
    · rw [if_neg hlt]
      have h365 := daysInYearB_ge (isLeap y)
      have h1 := ih (y + 1) (d - daysInYearB (isLeap y))
      have h2 : (d - daysInYearB (isLeap y)) / 365 ≤ (d - 365) / 365 :=
        Nat.div_le_div_right (by omega)
      omega

theorem yearFromDaysF_fst_ge : ∀ (fuel y d : Nat), y ≤ (yearFromDaysF fuel y d).1 := by
  intro fuel
  induction fuel with
  | zero => intro y d; exact Nat.le_refl y
  | succ f ih =>
    intro y d
    simp only [yearFromDaysF]
    by_cases hlt : d < daysInYearB (isLeap y)
    · rw [if_pos hlt]
    · rw [if_neg hlt]
      exact Nat.le_trans (Nat.le_succ y) (ih (y + 1) _)

theorem monthValid_false : ∀ doy, doy < 365 →
    1 ≤ (monthFromDaysF 11 false 1 doy).1 ∧ (monthFromDaysF 11 false 1 doy).1 ≤ 12 ∧
    (monthFromDaysF 11 false 1 doy).2 < daysInMonthB false (monthFromDaysF 11 false 1 doy).1 := by
  decide

theorem monthValid_true : ∀ doy, doy < 366 →
    1 ≤ (monthFromDaysF 11 true 1 doy).1 ∧ (monthFromDaysF 11 true 1 doy).1 ≤ 12 ∧
    (monthFromDaysF 11 true 1 doy).2 < daysInMonthB true (monthFromDaysF 11 true 1 doy).1 := by
  decide

theorem monthValid (leap : Bool) (doy : Nat) (hd : doy < daysInYearB leap) :
    1 ≤ (monthFromDaysF 11 leap 1 doy).1 ∧ (monthFromDaysF 11 leap 1 doy).1 ≤ 12 ∧
    (monthFromDaysF 11 leap 1 doy).2 < daysInMonthB leap (monthFromDaysF 11 leap 1 doy).1 := by
  cases leap with
  | false => exact monthValid_false doy (by simpa [daysInYearB] using hd)
  | true => exact monthValid_true doy (by simpa [daysInYearB] using hd)

theorem fromtimestampUTC_valid (n : Nat) (hn : n ≤ 253202544000) :
    1 ≤ (fromtimestampUTC n).year ∧ (fromtimestampUTC n).year ≤ 9999 ∧
    1 ≤ (fromtimestampUTC n).month ∧ (fromtimestampUTC n).month ≤ 12 ∧
    1 ≤ (fromtimestampUTC n).day ∧
    (fromtimestampUTC n).day
      ≤ daysInMonthB (isLeap (fromtimestampUTC n).year) (fromtimestampUTC n).month ∧
    (fromtimestampUTC n).hour ≤ 23 ∧ (fromtimestampUTC n).minute ≤ 59 ∧
    (fromtimestampUTC n).second ≤ 59 ∧ (fromtimestampUTC n).microsecond = 0 ∧
    (fromtimestampUTC n).offset = some 0 := by
  have hdays : n / 86400 < 365 * 9000 := by omega
  have hge := yearFromDaysF_fst_ge 9000 1970 (n / 86400)
  have hle := yearFromDaysF_fst_le 9000 1970 (n / 86400)
  have hdoy := yearFromDaysF_snd_lt 9000 1970 (n / 86400) hdays
  have hm := monthValid (isLeap (yearFromDaysF 9000 1970 (n / 86400)).1)
    (yearFromDaysF 9000 1970 (n / 86400)).2 hdoy
  simp only [fromtimestampUTC]
  refine ⟨by omega, by omega, hm.1, hm.2.1, by omega, ?_, by omega, by omega, by omega,
    by trivial, by trivial⟩
  have := hm.2.2
  omega

/-- The published field built by the reddit normalizer always satisfies
the parses-back-timezone-aware invariant, for any creation time within
Python's representable range. -/
theorem normSubmission_published_parses (name : String) (sub : RawSubmission)
    (hn : sub.created_utc ≤ 253202544000) :
    parsesTZAware (normSubmission name sub).published = true := by
  have hv := fromtimestampUTC_valid sub.created_utc hn
  show parsesTZAware (pyIsoformat (fromtimestampUTC sub.created_utc)) = true
  rcases hF : fromtimestampUTC sub.created_utc with ⟨y, mo, dd, h, mi, s, us, off⟩
  rw [hF] at hv
  obtain ⟨h1, h2, h3, h4, h5, h6, h7, h8, h9, h10, h11⟩ := hv
  simp only at h1 h2 h3 h4 h5 h6 h7 h8 h9 h10 h11
  subst h10
  subst h11
  exact parsesTZAware_isoformat y mo dd h mi s 0 h1 h2 h3 h4 h5 h6 h7 h8 h9 (by omega)

/-- The published field built by the RSS normalizer always satisfies the
invariant, given that the fetch-time fallback string does. -/
theorem normEntry_published_parses (name now : String) (e : RawEntry)
    (hnow : parsesTZAware now = true) :
    parsesTZAware (normEntry name now e).published = true := by
  show parsesTZAware
    (match e.published_parsed with
     | none => now
     | some t => match pyDatetimeMk t with | some dt => pyIsoformat dt | none => now) = true
  cases hp : e.published_parsed with
  | none => exact hnow
  | some t =>
    show parsesTZAware
      (match pyDatetimeMk t with | some dt => pyIsoformat dt | none => now) = true
    unfold pyDatetimeMk
    by_cases hvc : 1 ≤ t.y ∧ t.y ≤ 9999 ∧ 1 ≤ t.mo ∧ t.mo ≤ 12 ∧ 1 ≤ t.d ∧
        t.d ≤ daysInMonthB (isLeap t.y) t.mo ∧ t.h ≤ 23 ∧ t.mi ≤ 59 ∧ t.s ≤ 59
    · rw [if_pos hvc]
      show parsesTZAware (pyIsoformat ⟨t.y, t.mo, t.d, t.h, t.mi, t.s, 0, some 0⟩) = true
      obtain ⟨v1, v2, v3, v4, v5, v6, v7, v8, v9⟩ := hvc
      exact parsesTZAware_isoformat _ _ _ _ _ _ _ v1 v2 v3 v4 v5 v6 v7 v8 v9 (by omega)
    · rw [if_neg hvc]
      exact hnow

/-- A timestamp produced by the Python expression upstream or now
satisfies the invariant when the fallback does and the upstream value,
if present and nonempty, does. -/
theorem pyOrOpt_parses (a : Option String) (now : String) (hnow : parsesTZAware now = true)
    (ha : ∀ s, a = some s → s ≠ "" → parsesTZAware s = true) :
    parsesTZAware (pyOrOpt a now) = true := by
  unfold pyOrOpt
  cases a with
  | none => exact hnow
  | some s =>
    show parsesTZAware (if s = "" then now else s) = true
    by_cases hs : s = ""
    · rw [if_pos hs]
      exact hnow
    · rw [if_neg hs]
      exact ha s rfl hs

/-! ## Per-identifier failure lemmas -/

theorem twProcess_of_fails (env : TwitterEnv) (mx : Nat) (now u : String)
    (h : twFails env mx u = true) : twProcess env mx now u = [] := by
  unfold twFails at h
  unfold twProcess
  split at h
  next e heq => rfl
  next ur heq =>
    by_cases hs : ur.status ≠ 200
    · rw [if_pos hs]
    · rw [if_neg hs] at h ⊢
      split at h
      next e heq2 => rfl
      next tr heq2 => rw [if_pos (of_decide_eq_true h)]

theorem redProcess_of_fails (env : RedditEnv) (mx : Nat) (u : String)
    (h : redFails env mx u = true) : redProcess env mx u = [] := by
  unfold redFails at h
  unfold redProcess
  split at h
  next e heq => rfl
  next l heq => simp at h

theorem rssProcess_of_fails (env : String → Except String ParsedFeed) (mx : Nat)
    (now : String) (f : String × String)
    (h : rssFails env f.2 = true) : rssProcess env mx now f = [] := by
  unfold rssFails at h
  unfold rssProcess
  split at h
  next e heq => rfl
  next pf heq => simp at h

theorem ghCommitsPart_of_fails (env : GithubEnv) (mx : Nat) (now repoFull owner repo : String)
    (h : ghCommitsFail env mx owner repo = true) :
    ghCommitsPart env mx now repoFull owner repo = [] := by
  unfold ghCommitsFail at h
  unfold ghCommitsPart
  split at h
  next e heq => rfl
  next r heq => rw [if_pos (of_decide_eq_true h)]

theorem ghReleasesPart_of_fails (env : GithubEnv) (mx : Nat) (now repoFull owner repo : String)
    (h : ghReleasesFail env mx owner repo = true) :
    ghReleasesPart env mx now repoFull owner repo = [] := by
  unfold ghReleasesFail at h
  unfold ghReleasesPart
  split at h
  next e heq => rfl
  next r heq => rw [if_pos (of_decide_eq_true h)]

theorem ghProcess_of_fails (env : GithubEnv) (mx : Nat) (now u : String)
    (h : ghFails env mx u = true) : ghProcess env mx now u = [] := by
  unfold ghFails at h
  unfold ghProcess
  split
  next owner repo heq =>
    simp only [heq] at h
    rw [Bool.and_eq_true] at h
    obtain ⟨h1, h2⟩ := h
    rw [ghCommitsPart_of_fails env mx now u owner repo h1,
        ghReleasesPart_of_fails env mx now u owner repo h2]
    rfl
  next => rfl

/-! ## Membership characterizations of adapter output -/

theorem mem_fetch_twitter {us : List String} {env : TwitterEnv} {mx : Nat} {now : String}
    {tok : Option String} {item : Item} (h : item ∈ fetch_twitter_posts us env mx now tok) :
    ∃ u, u ∈ us ∧ item ∈ twProcess env mx now u := by
  unfold fetch_twitter_posts at h
  split at h
  · exact mem_foldl_append _ _ _ h
  · simp at h

theorem mem_fetch_reddit {subs : List String} {env : RedditEnv} {mx : Nat}
    {cid csec : Option String} {item : Item} (h : item ∈ fetch_reddit_posts subs env mx cid csec) :
    ∃ u, u ∈ subs ∧ item ∈ redProcess env mx u := by
  unfold fetch_reddit_posts at h
  split at h
  · split at h
    · simp at h
    · exact mem_foldl_append _ _ _ h
  · simp at h

theorem mem_fetch_rss {feeds : List (String × String)} {env : String → Except String ParsedFeed}
    {mx : Nat} {now : String} {item : Item} (h : item ∈ fetch_rss_feeds feeds env mx now) :
    ∃ f, f ∈ feeds ∧ item ∈ rssProcess env mx now f := by
  unfold fetch_rss_feeds at h
  exact mem_foldl_append _ _ _ h

theorem mem_fetch_github {repos : List String} {env : GithubEnv} {mx : Nat} {now : String}
    {item : Item} (h : item ∈ fetch_github_updates repos env mx now) :
    ∃ u, u ∈ repos ∧ item ∈ ghProcess env mx now u := by
  unfold fetch_github_updates at h
  exact mem_foldl_append _ _ _ h

theorem mem_twProcess {env : TwitterEnv} {mx : Nat} {now u : String} {item : Item}
    (h : item ∈ twProcess env mx now u) :
    ∃ ur tr t, env.userByName u = Except.ok ur ∧ env.tweetsOf ur.userId mx = Except.ok tr ∧
      t ∈ tr.tweets ∧ item = normTweet u now t := by
  unfold twProcess at h
  split at h
  · simp at h
  · next ur heq =>
    split at h
    · simp at h
    · split at h
      · simp at h
      · next tr heq2 =>
        split at h
        · simp at h
        · obtain ⟨t, ht, hi⟩ := List.mem_map.mp h
          exact ⟨ur, tr, t, heq, heq2, ht, hi.symm⟩

theorem mem_redProcess {env : RedditEnv} {mx : Nat} {u : String} {item : Item}
    (h : item ∈ redProcess env mx u) :
    ∃ l sub, env.subs u mx = Except.ok l ∧ sub ∈ l ∧ item = normSubmission u sub := by
  unfold redProcess at h
  split at h
  · simp at h
  · next l heq =>
    obtain ⟨sub, hs, hi⟩ := List.mem_map.mp h
    exact ⟨l, sub, heq, hs, hi.symm⟩

theorem mem_rssProcess {env : String → Except String ParsedFeed} {mx : Nat} {now : String}
    {f : String × String} {item : Item} (h : item ∈ rssProcess env mx now f) :
    ∃ pf e, env f.2 = Except.ok pf ∧ e ∈ pf.entries.take mx ∧ item = normEntry f.1 now e := by
  unfold rssProcess at h
  split at h
  · simp at h
  · next pf heq =>
    obtain ⟨e, he, hi⟩ := List.mem_map.mp h
    exact ⟨pf, e, heq, he, hi.symm⟩

theorem mem_normCommitItems {repoFull now : String} {c : RawCommit} {item : Item}
    (h : item ∈ normCommitItems repoFull now c) :
    item = ⟨"github", repoFull, firstLine c.message, urlFieldOfOpt (pyOr2 c.html_url c.url),
            firstLine c.message, pyOrOpt c.date now⟩ := by
  unfold normCommitItems at h
  split at h
  · simp at h
  · rw [List.mem_singleton] at h
    exact h

theorem mem_normReleaseItems {repoFull now : String} {r : RawRelease} {item : Item}
    (h : item ∈ normReleaseItems repoFull now r) :
    ∃ t, pyOr2 r.name r.tag_name = some t ∧
      item = ⟨"github", repoFull, t, urlFieldOfOpt (pyOr2 r.html_url r.url),
              (if r.body.getD "" = "" then "" else pySlice 200 (r.body.getD "")),
              pyOrOpt r.published_at now⟩ := by
  unfold normReleaseItems at h
  split at h
  · simp at h
  · next t heq =>
    split at h
    · simp at h
    · rw [List.mem_singleton] at h
      exact ⟨t, heq, h⟩

theorem mem_ghProcess {env : GithubEnv} {mx : Nat} {now u : String} {item : Item}
    (h : item ∈ ghProcess env mx now u) :
    (∃ owner repo resp c, pySplitSlash u = [owner, repo] ∧
       env.commits owner repo mx = Except.ok resp ∧ c ∈ resp.json.getD [] ∧
       item ∈ normCommitItems u now c) ∨
    (∃ owner repo resp r, pySplitSlash u = [owner, repo] ∧
       env.releases owner repo mx = Except.ok resp ∧ r ∈ (resp.json.getD []).take mx ∧
       item ∈ normReleaseItems u now r) := by
  unfold ghProcess at h
  split at h
  · next owner repo heq =>
    rcases List.mem_append.mp h with hc | hr
    · unfold ghCommitsPart at hc
      split at hc
      · simp at hc
      · next resp heq2 =>
        split at hc
        · simp at hc
        · obtain ⟨c, hcm, hcm2⟩ := List.mem_flatMap.mp hc
          exact Or.inl ⟨owner, repo, resp, c, heq, heq2, hcm, hcm2⟩
    · unfold ghReleasesPart at hr
      split at hr
      · simp at hr
      · next resp heq2 =>
        split at hr
        · simp at hr
        · obtain ⟨r, hrm, hrm2⟩ := List.mem_flatMap.mp hr
          exact Or.inr ⟨owner, repo, resp, r, heq, heq2, hrm, hrm2⟩
  · simp at h

/-! ## Claim theorems -/

/-- C7: filter_today is idempotent: filtering an already-filtered
collection again, with the same timezone data and the same reference
moment, yields the identical collection. -/
theorem filter_today_idempotent (tz sys : PyTz) (today : Nat × Nat × Nat)
    (nowUtc : PyDatetime) (results : List Item) :
    filter_today tz sys today nowUtc (filter_today tz sys today nowUtc results)
      = filter_today tz sys today nowUtc results := by
  unfold filter_today
  exact filter_idem _ _

/-- C9: filter_today returns a sublist of its input: every retained item
appears exactly as in the input, in the same relative order, with no
duplication or modification. -/
theorem filter_today_sublist (tz sys : PyTz) (today : Nat × Nat × Nat)
    (nowUtc : PyDatetime) (results : List Item) :
    (filter_today tz sys today nowUtc results).Sublist results := by
  unfold filter_today
  exact List.filter_sublist results

/-- C3 (divergence witness): generate_html embeds the url verbatim inside
a single-quoted href attribute, so an url containing a quote breaks out
of the attribute and injects an onclick handler; upstream-controlled urls
are not escaped, contradicting the requirement that all
upstream-controlled text be escaped. -/
theorem generate_html_url_not_escaped :
    generate_html [evilUrlItem] "2024-01-02"
      = "<html><head><meta charset=\x27UTF-8\x27><title>Crypto News</title></head><body>\n"
        ++ "<h1>Crypto News for 2024-01-02</h1>\n<ul>\n"
        ++ "  <li><a href=\x27#\x27 onclick=\x27alert(1)\x27 target=\x27_blank\x27>t</a>"
        ++ " - twitter (s)</li>\n</ul>\n</body></html>\n" := by
  decide

/-- C5 (counterexample): an item whose url is the stored null value is
rendered with the literal text None inside the href, not with the
placeholder, so a null does appear in the output. -/
theorem generate_html_null_url_renders_none :
    generate_html [nullUrlItem] "2024-01-02"
      = "<html><head><meta charset=\x27UTF-8\x27><title>Crypto News</title></head><body>\n"
        ++ "<h1>Crypto News for 2024-01-02</h1>\n<ul>\n"
        ++ "  <li><a href=\x27None\x27 target=\x27_blank\x27>t</a>"
        ++ " - github (o/r)</li>\n</ul>\n</body></html>\n" := by
  decide

/-- C5 (amended): an item whose url key is absent is rendered with the
placeholder link and the render never fails; only a key that is present
with value null renders as the text None. -/
theorem itemLi_absent_url_placeholder (item : Item) (h : item.url = UrlField.absent) :
    itemLi item
      = "  <li><a href=\x27#\x27 target=\x27_blank\x27>" ++ htmlEscape item.title
        ++ "</a> - " ++ htmlEscape item.platform
        ++ " (" ++ htmlEscape item.source ++ ")</li>\n" := by
  unfold itemLi
  rw [h]
  rfl

/-- C5 (witness for the amended theorem). -/
theorem itemLi_absent_url_placeholder_witness :
    (Item.mk "rss" "s" "t" UrlField.absent "" "").url = UrlField.absent ∧
      itemLi (Item.mk "rss" "s" "t" UrlField.absent "" "")
        = "  <li><a href=\x27#\x27 target=\x27_blank\x27>" ++ htmlEscape "t"
          ++ "</a> - " ++ htmlEscape "rss" ++ " (" ++ htmlEscape "s" ++ ")</li>\n" :=
  ⟨rfl, itemLi_absent_url_placeholder (Item.mk "rss" "s" "t" UrlField.absent "" "") rfl⟩

/-- C6 (counterexample): with no output_dir, an unrecognized output
format is silently ignored: the call completes without error (and writes
nothing), instead of failing. -/
theorem save_results_silent_without_dir :
    save_results [] none none none "xml" = Except.ok [] := by
  rfl

/-- C6 (amended): whenever output_dir is given and truthy, an
output_format whose lowercase form is neither json nor csv makes
save_results raise ValueError. -/
theorem save_results_bad_format_raises (results : List Item) (jp cp : Option String)
    (dir fmt : String) (hdir : ¬dir = "")
    (h1 : ¬pyLower fmt = "json") (h2 : ¬pyLower fmt = "csv") :
    save_results results jp cp (some dir) fmt
      = Except.error "Invalid output_format; must be \x27json\x27 or \x27csv\x27" := by
  simp only [save_results]
  rw [if_neg hdir, if_neg h1, if_neg h2]

/-- C6 (witness for the amended theorem). -/
theorem save_results_bad_format_raises_witness :
    (¬"data" = "") ∧ (¬pyLower "xml" = "json") ∧ (¬pyLower "xml" = "csv") ∧
      save_results [] none none (some "data") "xml"
        = Except.error "Invalid output_format; must be \x27json\x27 or \x27csv\x27" :=
  ⟨by decide, by decide, by decide,
   save_results_bad_format_raises [] none none "data" "xml" (by decide) (by decide) (by decide)⟩

/-- C10: save_results matches the output format case-insensitively when
output_dir is given: JSON and Json behave exactly like json (writing
latest.json under the directory), and CSV exactly like csv. -/
theorem save_results_case_insensitive (results : List Item) (jp cp dir : Option String) :
    save_results results jp cp dir "JSON" = save_results results jp cp dir "json" ∧
    save_results results jp cp dir "Json" = save_results results jp cp dir "json" ∧
    save_results results jp cp dir "CSV" = save_results results jp cp dir "csv" ∧
    save_results results none none (some "data") "JSON"
      = Except.ok [WriteOp.json "data/latest.json" results] := by
  have hJ : pyLower "JSON" = "json" := by decide
  have hJ2 : pyLower "Json" = "json" := by decide
  have hC : pyLower "CSV" = "csv" := by decide
  have hj : pyLower "json" = "json" := by decide
  have hc : pyLower "csv" = "csv" := by decide
  refine ⟨?_, ?_, ?_, ?_⟩
  · cases dir with
    | none => rfl
    | some d => simp only [save_results, hJ, hj]
  · cases dir with
    | none => rfl
    | some d => simp only [save_results, hJ2, hj]
  · cases dir with
    | none => rfl
    | some d => simp only [save_results, hC, hc]
  · simp only [save_results, hJ]
    rw [if_neg (by decide : ¬("data" : String) = "")]
    rw [if_pos trivial]
    rfl

/-- C1: each adapter fetch is the identifier-ordered concatenation of
independent per-identifier contributions, and an identifier whose client
call raises or returns a non-success response contributes the empty
collection; hence one failing identifier never disturbs the items of the
others and no exception escapes the fetch (the model is total). -/
theorem c1_fault_isolation :
    (∀ (us : List String) (env : TwitterEnv) (mx : Nat) (now tok : String), tok ≠ "" →
       fetch_twitter_posts us env mx now (some tok) = us.flatMap (twProcess env mx now)) ∧
    (∀ (env : TwitterEnv) (mx : Nat) (now u : String),
       twFails env mx u = true → twProcess env mx now u = []) ∧
    (∀ (subs : List String) (env : RedditEnv) (mx : Nat) (cid csec : Option String),
       pyTruthy cid = true → pyTruthy csec = true → env.init = Except.ok () →
       fetch_reddit_posts subs env mx cid csec = subs.flatMap (redProcess env mx)) ∧
    (∀ (env : RedditEnv) (mx : Nat) (u : String),
       redFails env mx u = true → redProcess env mx u = []) ∧
    (∀ (feeds : List (String × String)) (env : String → Except String ParsedFeed)
       (mx : Nat) (now : String),
       fetch_rss_feeds feeds env mx now = feeds.flatMap (rssProcess env mx now)) ∧
    (∀ (env : String → Except String ParsedFeed) (mx : Nat) (now : String)
       (f : String × String),
       rssFails env f.2 = true → rssProcess env mx now f = []) ∧
    (∀ (repos : List String) (env : GithubEnv) (mx : Nat) (now : String),
       fetch_github_updates repos env mx now = repos.flatMap (ghProcess env mx now)) ∧
    (∀ (env : GithubEnv) (mx : Nat) (now u : String),
       ghFails env mx u = true → ghProcess env mx now u = []) := by
  refine ⟨?_, twProcess_of_fails, ?_, redProcess_of_fails, ?_, rssProcess_of_fails,
          ?_, ghProcess_of_fails⟩
  · intro us env mx now tok htok
    unfold fetch_twitter_posts
    rw [if_pos (by simp [pyTruthy, htok])]
    simpa using foldl_append_eq_flatMap (twProcess env mx now) us []
  · intro subs env mx cid csec h1 h2 h3
    unfold fetch_reddit_posts
    rw [if_pos (by rw [h1, h2]; rfl), h3]
    simpa using foldl_append_eq_flatMap (redProcess env mx) subs []
  · intro feeds env mx now
    unfold fetch_rss_feeds
    simpa using foldl_append_eq_flatMap (rssProcess env mx now) feeds []
  · intro repos env mx now
    unfold fetch_github_updates
    simpa using foldl_append_eq_flatMap (ghProcess env mx now) repos []

/-- C1 (witness): concrete runs with one failing identifier for each
adapter, the contributions of the others being preserved verbatim. -/
theorem c1_fault_isolation_witness :
    (("tok" : String) ≠ "" ∧
       fetch_twitter_posts ["good", "bad"] twEnvFail 5 nowS (some "tok")
         = ["good", "bad"].flatMap (twProcess twEnvFail 5 nowS)) ∧
    (twFails twEnvFail 5 "bad" = true ∧ twProcess twEnvFail 5 nowS "bad" = []) ∧
    (pyTruthy (some "cid") = true ∧ pyTruthy (some "sec") = true ∧
       redEnvFail.init = Except.ok () ∧
       fetch_reddit_posts ["good", "bad"] redEnvFail 5 (some "cid") (some "sec")
         = ["good", "bad"].flatMap (redProcess redEnvFail 5)) ∧
    (redFails redEnvFail 5 "bad" = true ∧ redProcess redEnvFail 5 "bad" = []) ∧
    (fetch_rss_feeds [("n", "good"), ("m", "bad")] rssEnvFail 5 nowS
       = [("n", "good"), ("m", "bad")].flatMap (rssProcess rssEnvFail 5 nowS)) ∧
    (rssFails rssEnvFail "bad" = true ∧ rssProcess rssEnvFail 5 nowS ("m", "bad") = []) ∧
    (fetch_github_updates ["good/r", "bad/r"] ghEnvFail 5 nowS
       = ["good/r", "bad/r"].flatMap (ghProcess ghEnvFail 5 nowS)) ∧
    (ghFails ghEnvFail 5 "bad/r" = true ∧ ghProcess ghEnvFail 5 nowS "bad/r" = []) :=
  ⟨⟨by decide, c1_fault_isolation.1 ["good", "bad"] twEnvFail 5 nowS "tok" (by decide)⟩,
   ⟨by decide, c1_fault_isolation.2.1 twEnvFail 5 nowS "bad" (by decide)⟩,
   ⟨by decide, by decide, rfl,
    c1_fault_isolation.2.2.1 ["good", "bad"] redEnvFail 5 (some "cid") (some "sec")
      (by decide) (by decide) rfl⟩,
   ⟨by decide, c1_fault_isolation.2.2.2.1 redEnvFail 5 "bad" (by decide)⟩,
   c1_fault_isolation.2.2.2.2.1 [("n", "good"), ("m", "bad")] rssEnvFail 5 nowS,
   ⟨by decide, c1_fault_isolation.2.2.2.2.2.1 rssEnvFail 5 nowS ("m", "bad") (by decide)⟩,
   c1_fault_isolation.2.2.2.2.2.2.1 ["good/r", "bad/r"] ghEnvFail 5 nowS,
   ⟨by decide, c1_fault_isolation.2.2.2.2.2.2.2 ghEnvFail 5 nowS "bad/r" (by decide)⟩⟩

/-- C4 (counterexample): a github commit whose message's first line has
201 characters yields an item whose summary keeps all 201 characters, so
not every repo-origin item has a summary of at most 200 characters. -/
theorem github_commit_summary_unbounded :
    ((fetch_github_updates ["o/r"] ghEnvLongCommit 5 nowS).all
      (fun i => decide (i.summary.length ≤ 200))) = false := by
  decide

/-- C4 (amended): reddit item summaries and github release item summaries
are truncated to at most 200 characters, and twitter item titles to at
most 100 characters; a github commit item's summary, however, is the
untruncated first line of the commit message. -/
theorem c4_amended :
    (∀ (subs : List String) (env : RedditEnv) (mx : Nat) (cid csec : Option String)
       (item : Item), item ∈ fetch_reddit_posts subs env mx cid csec →
       item.summary.length ≤ 200) ∧
    (∀ (repoFull now : String) (r : RawRelease) (item : Item),
       item ∈ normReleaseItems repoFull now r → item.summary.length ≤ 200) ∧
    (∀ (us : List String) (env : TwitterEnv) (mx : Nat) (now : String) (tok : Option String)
       (item : Item), item ∈ fetch_twitter_posts us env mx now tok →
       item.title.length ≤ 100) ∧
    (∀ (repoFull now : String) (c : RawCommit) (item : Item),
       item ∈ normCommitItems repoFull now c → item.summary = firstLine c.message) := by
  refine ⟨?_, ?_, ?_, ?_⟩
  · intro subs env mx cid csec item hmem
    unfold fetch_reddit_posts at hmem
    split at hmem
    · split at hmem
      · simp at hmem
      · obtain ⟨u, hu, hx⟩ := mem_foldl_append _ _ _ hmem
        unfold redProcess at hx
        split at hx
        · simp at hx
        · next l heq =>
          obtain ⟨s, hsl, hitem⟩ := List.mem_map.mp hx
          cases hitem
          show (if s.selftext = "" then "" else pySlice 200 s.selftext).length ≤ 200
          by_cases hsel : s.selftext = ""
          · rw [if_pos hsel]; decide
          · rw [if_neg hsel]; exact pySlice_length_le 200 s.selftext
    · simp at hmem
  · intro repoFull now r item hmem
    unfold normReleaseItems at hmem
    split at hmem
    · simp at hmem
    · next t heq =>
      split at hmem
      · simp at hmem
      · rw [List.mem_singleton] at hmem
        cases hmem
        show (if r.body.getD "" = "" then "" else pySlice 200 (r.body.getD "")).length ≤ 200
        by_cases hb : r.body.getD "" = ""
        · rw [if_pos hb]; decide
        · rw [if_neg hb]; exact pySlice_length_le 200 _
  · intro us env mx now tok item hmem
    unfold fetch_twitter_posts at hmem
    split at hmem
    · obtain ⟨u, hu, hx⟩ := mem_foldl_append _ _ _ hmem
      unfold twProcess at hx
      split at hx
      · simp at hx
      · next ur heq =>
        split at hx
        · simp at hx
        · split at hx
          · simp at hx
          · next tr heq2 =>
            split at hx
            · simp at hx
            · obtain ⟨t, htl, hitem⟩ := List.mem_map.mp hx
              cases hitem
              show (if (t.text.getD "").length > 100
                    then pySlice 100 (t.text.getD "") else t.text.getD "").length ≤ 100
              by_cases hlen : (t.text.getD "").length > 100
              · rw [if_pos hlen]; exact pySlice_length_le 100 _
              · rw [if_neg hlen]; omega
    · simp at hmem
  · intro repoFull now c item hmem
    unfold normCommitItems at hmem
    split at hmem
    · simp at hmem
    · rw [List.mem_singleton] at hmem
      cases hmem
      rfl

/-- C4 (witness for the amended theorem): concrete items of each kind. -/
theorem c4_amended_witness :
    (normSubmission "x" ⟨"t", "body", "u", 1700000000⟩
        ∈ fetch_reddit_posts ["x"] redEnvC2 5 (some "cid") (some "sec") ∧
      (normSubmission "x" ⟨"t", "body", "u", 1700000000⟩).summary.length ≤ 200) ∧
    ((⟨"github", "o/r", "v1", UrlField.str "u", "b", "2024-01-02T00:00:00Z"⟩ : Item)
        ∈ normReleaseItems "o/r" nowS
            ⟨some "v1", none, none, some "u", some "b", some "2024-01-02T00:00:00Z"⟩ ∧
      ("b" : String).length ≤ 200) ∧
    (normTweet "u" nowS ⟨some "hi", some "1", some "2024-01-02T00:00:00+00:00"⟩
        ∈ fetch_twitter_posts ["u"] twEnvC2 5 nowS (some "tok") ∧
      (normTweet "u" nowS ⟨some "hi", some "1", some "2024-01-02T00:00:00+00:00"⟩).title.length ≤ 100) ∧
    ((⟨"github", "o/r", "m", UrlField.str "u", "m", "2024-01-02T00:00:00+00:00"⟩ : Item)
        ∈ normCommitItems "o/r" nowS ⟨"m", some "u", none, some "2024-01-02T00:00:00+00:00"⟩ ∧
      ("m" : String) = firstLine "m") :=
  ⟨⟨by decide,
    c4_amended.1 ["x"] redEnvC2 5 (some "cid") (some "sec")
      (normSubmission "x" ⟨"t", "body", "u", 1700000000⟩) (by decide)⟩,
   ⟨by decide,
    c4_amended.2.1 "o/r" nowS ⟨some "v1", none, none, some "u", some "b", some "2024-01-02T00:00:00Z"⟩
      ⟨"github", "o/r", "v1", UrlField.str "u", "b", "2024-01-02T00:00:00Z"⟩ (by decide)⟩,
   ⟨by decide,
    c4_amended.2.2.1 ["u"] twEnvC2 5 nowS (some "tok")
      (normTweet "u" nowS ⟨some "hi", some "1", some "2024-01-02T00:00:00+00:00"⟩) (by decide)⟩,
   ⟨by decide,
    c4_amended.2.2.2 "o/r" nowS ⟨"m", some "u", none, some "2024-01-02T00:00:00+00:00"⟩
      ⟨"github", "o/r", "m", UrlField.str "u", "m", "2024-01-02T00:00:00+00:00"⟩ (by decide)⟩⟩

/-- C8 (counterexample): the sort raises.  One item parses to a naive
datetime and the other's unparsable timestamp falls back to the aware
current instant, so Python's key comparison raises TypeError: the sort
does not survive every collection, not even within the claim's own scope
of unparsable timestamps. -/
theorem sortStep_raises_on_mixed :
    sortStep nowDt [itemNaive, itemGarbage]
      = Except.error "TypeError: cant compare offset-naive and offset-aware datetimes" := by
  rfl

theorem insOneE_aware (key : Item → PyDatetime) (a : Item) (l : List Item)
    (ha : (key a).offset.isSome = true) (hl : ∀ b ∈ l, (key b).offset.isSome = true) :
    ∃ r, insOneE key a l = Except.ok r ∧ (a :: l).Perm r ∧
      (l.Pairwise (fun x y => epochMicros (key y) ≤ epochMicros (key x)) →
        r.Pairwise (fun x y => epochMicros (key y) ≤ epochMicros (key x))) := by
  induction l with
  | nil => exact ⟨[a], rfl, List.Perm.refl _, fun _ => List.pairwise_singleton _ _⟩
  | cons b bs ih =>
    obtain ⟨oa, hoa⟩ := Option.isSome_iff_exists.mp ha
    obtain ⟨ob, hob⟩ := Option.isSome_iff_exists.mp (hl b (List.mem_cons_self b bs))
    have hcmp : pyLtB (key a) (key b)
        = Except.ok (decide (epochMicros (key a) < epochMicros (key b))) := by
      unfold pyLtB
      rw [hoa, hob]
    by_cases hlt : epochMicros (key a) < epochMicros (key b)
    · obtain ⟨r, hr, hperm, hsort⟩ := ih (fun x hx => hl x (List.mem_cons_of_mem b hx))
      refine ⟨b :: r, ?_, ?_, ?_⟩
      · unfold insOneE
        rw [hcmp, decide_eq_true hlt, hr]
      · exact (List.Perm.swap b a bs).trans (hperm.cons b)
      · intro hp
        rw [List.pairwise_cons] at hp ⊢
        obtain ⟨hb, hbs⟩ := hp
        refine ⟨?_, hsort hbs⟩
        intro x hx
        have hx2 : x ∈ a :: bs := hperm.mem_iff.mpr hx
        rcases List.mem_cons.mp hx2 with rfl | hxbs
        · exact le_of_lt hlt
        · exact hb x hxbs
    · refine ⟨a :: b :: bs, ?_, List.Perm.refl _, ?_⟩
      · unfold insOneE
        rw [hcmp, decide_eq_false hlt]
      · intro hp
        rw [List.pairwise_cons]
        refine ⟨?_, hp⟩
        intro x hx
        rcases List.mem_cons.mp hx with rfl | hxbs
        · exact not_lt.mp hlt
        · exact le_trans ((List.pairwise_cons.mp hp).1 x hxbs) (not_lt.mp hlt)

theorem sortDescE_aware (key : Item → PyDatetime) (l : List Item)
    (hl : ∀ b ∈ l, (key b).offset.isSome = true) :
    ∃ r, sortDescE key l = Except.ok r ∧ l.Perm r ∧
      r.Pairwise (fun x y => epochMicros (key y) ≤ epochMicros (key x)) := by
  induction l with
  | nil => exact ⟨[], rfl, List.Perm.refl _, List.Pairwise.nil⟩
  | cons a rest ih =>
    obtain ⟨r, hr, hperm, hsort⟩ := ih (fun x hx => hl x (List.mem_cons_of_mem a hx))
    obtain ⟨r2, hr2, hperm2, hsort2⟩ :=
      insOneE_aware key a r (hl a (List.mem_cons_self a rest))
        (fun x hx => hl x (List.mem_cons_of_mem a (hperm.mem_iff.mpr hx)))
    refine ⟨r2, ?_, ?_, hsort2 hsort⟩
    · unfold sortDescE
      rw [hr]
      exact hr2
    · exact (hperm.cons a).trans hperm2

/-- C8 (amended): whenever every parsed published instant is
timezone-aware (which holds for all well-formed pipeline data, the
unparsable-timestamp fallback being the aware current instant), the sort
step raises nothing, returns a permutation of its input with no item
dropped, and the parsed instants along the output are non-increasing.
When a parseable-but-naive timestamp meets an aware one, Python datetime
comparison raises TypeError instead. -/
theorem c8_amended (nowUtc : PyDatetime) (items : List Item)
    (h : ∀ i ∈ items, (sortKey nowUtc i).offset.isSome = true) :
    ∃ ys, sortStep nowUtc items = Except.ok ys ∧ items.Perm ys ∧
      ys.Pairwise (fun a b =>
        epochMicros (sortKey nowUtc b) ≤ epochMicros (sortKey nowUtc a)) := by
  unfold sortStep
  exact sortDescE_aware (sortKey nowUtc) items h

/-- C2 (counterexample): a tweet whose created_at is the unparsable
string garbage yields an item carrying that string verbatim as published,
which does not parse back into a timezone-aware instant; the adapters do
not validate upstream-supplied timestamps. -/
theorem c2_counterexample :
    fetch_twitter_posts ["u"] twEnvGarbage 5 nowS (some "tok")
      = [⟨"twitter", "u", "hi", UrlField.str "https://twitter.com/u/status/1", "hi", "garbage"⟩] ∧
    parsesTZAware "garbage" = false :=
  ⟨by decide, by decide⟩

/-- C2 (amended): every adapter item's platform is its adapter's constant
enumerated kind.  The published field parses back into a timezone-aware
instant provided the substituted fetch-time string does and every
upstream-supplied timestamp string (twitter created_at, github commit
date and release published_at), when present and nonempty, itself does;
reddit and rss items need no such assumption on upstream strings, their
timestamps being generated UTC isoformat strings (reddit creation times
within Python's representable year range). -/
theorem c2_amended :
    (∀ (us : List String) (env : TwitterEnv) (mx : Nat) (now : String) (tok : Option String)
       (item : Item), item ∈ fetch_twitter_posts us env mx now tok →
       item.platform = "twitter") ∧
    (∀ (subs : List String) (env : RedditEnv) (mx : Nat) (cid csec : Option String)
       (item : Item), item ∈ fetch_reddit_posts subs env mx cid csec →
       item.platform = "reddit") ∧
    (∀ (feeds : List (String × String)) (env : String → Except String ParsedFeed) (mx : Nat)
       (now : String) (item : Item), item ∈ fetch_rss_feeds feeds env mx now →
       item.platform = "rss") ∧
    (∀ (repos : List String) (env : GithubEnv) (mx : Nat) (now : String) (item : Item),
       item ∈ fetch_github_updates repos env mx now → item.platform = "github") ∧
    (∀ (us : List String) (env : TwitterEnv) (mx : Nat) (now : String) (tok : Option String)
       (item : Item), parsesTZAware now = true → twEnvTimesOk env mx →
       item ∈ fetch_twitter_posts us env mx now tok → parsesTZAware item.published = true) ∧
    (∀ (subs : List String) (env : RedditEnv) (mx : Nat) (cid csec : Option String)
       (item : Item), redEnvEpochOk env mx →
       item ∈ fetch_reddit_posts subs env mx cid csec → parsesTZAware item.published = true) ∧
    (∀ (feeds : List (String × String)) (env : String → Except String ParsedFeed) (mx : Nat)
       (now : String) (item : Item), parsesTZAware now = true →
       item ∈ fetch_rss_feeds feeds env mx now → parsesTZAware item.published = true) ∧
    (∀ (repos : List String) (env : GithubEnv) (mx : Nat) (now : String) (item : Item),
       parsesTZAware now = true → ghEnvTimesOk env mx →
       item ∈ fetch_github_updates repos env mx now → parsesTZAware item.published = true) := by
  refine ⟨?_, ?_, ?_, ?_, ?_, ?_, ?_, ?_⟩
  · intro us env mx now tok item h
    obtain ⟨u, hu, hp⟩ := mem_fetch_twitter h
    obtain ⟨ur, tr, t, _, _, _, hi⟩ := mem_twProcess hp
    subst hi
    rfl
  · intro subs env mx cid csec item h
    obtain ⟨u, hu, hp⟩ := mem_fetch_reddit h
    obtain ⟨l, sub, _, _, hi⟩ := mem_redProcess hp
    subst hi
    rfl
  · intro feeds env mx now item h
    obtain ⟨f, hf, hp⟩ := mem_fetch_rss h
    obtain ⟨pf, e, _, _, hi⟩ := mem_rssProcess hp
    subst hi
    rfl
  · intro repos env mx now item h
    obtain ⟨u, hu, hp⟩ := mem_fetch_github h
    rcases mem_ghProcess hp with ⟨o, r, resp, c, _, _, _, hi⟩ | ⟨o, r, resp, rl, _, _, _, hi⟩
    · rw [mem_normCommitItems hi]
    · obtain ⟨t, _, hi2⟩ := mem_normReleaseItems hi
      rw [hi2]
  · intro us env mx now tok item hnow henv h
    obtain ⟨u, hu, hp⟩ := mem_fetch_twitter h
    obtain ⟨ur, tr, t, h1, h2, h3, hi⟩ := mem_twProcess hp
    subst hi
    exact pyOrOpt_parses _ _ hnow (henv u ur tr t h1 h2 h3)
  · intro subs env mx cid csec item henv h
    obtain ⟨u, hu, hp⟩ := mem_fetch_reddit h
    obtain ⟨l, sub, h1, h2, hi⟩ := mem_redProcess hp
    subst hi
    exact normSubmission_published_parses u sub (henv u l sub h1 h2)
  · intro feeds env mx now item hnow h
    obtain ⟨f, hf, hp⟩ := mem_fetch_rss h
    obtain ⟨pf, e, _, _, hi⟩ := mem_rssProcess hp
    subst hi
    exact normEntry_published_parses f.1 now e hnow
  · intro repos env mx now item hnow henv h
    obtain ⟨u, hu, hp⟩ := mem_fetch_github h
    rcases mem_ghProcess hp with ⟨o, r, resp, c, _, hc1, hc2, hi⟩ |
      ⟨o, r, resp, rl, _, hr1, hr2, hi⟩
    · rw [mem_normCommitItems hi]
      exact pyOrOpt_parses _ _ hnow (henv.1 o r resp c hc1 hc2)
    · obtain ⟨t, _, hi2⟩ := mem_normReleaseItems hi
      rw [hi2]
      exact pyOrOpt_parses _ _ hnow (henv.2 o r resp rl hr1 (List.take_subset mx _ hr2))

theorem twEnvC2_ok : twEnvTimesOk twEnvC2 5 := by
  intro u ur tr t h1 h2 h3 s hs hne
  cases h1
  cases h2
  simp only [twEnvC2, List.mem_singleton] at h3
  subst h3
  cases hs
  decide

theorem redEnvC2_ok : redEnvEpochOk redEnvC2 5 := by
  intro u l sub h1 h2
  cases h1
  simp only [redEnvC2, List.mem_singleton] at h2
  subst h2
  decide

theorem ghEnvC2_ok : ghEnvTimesOk ghEnvC2 5 := by
  constructor
  · intro o r resp c h1 h2 s hs hne
    cases h1
    simp only [ghEnvC2, Option.getD, List.mem_singleton] at h2
    subst h2
    cases hs
    decide
  · intro o r resp rl h1 h2 s hs hne
    cases h1
    simp only [ghEnvC2, Option.getD, List.mem_singleton] at h2
    subst h2
    cases hs
    decide

/-- C2 (witness for the amended theorem): concrete runs of all four
adapters with well-formed upstream data. -/
theorem c2_amended_witness :
    (parsesTZAware nowS = true ∧ twEnvTimesOk twEnvC2 5 ∧
       normTweet "u" nowS ⟨some "hi", some "1", some "2024-01-02T00:00:00+00:00"⟩
         ∈ fetch_twitter_posts ["u"] twEnvC2 5 nowS (some "tok") ∧
       parsesTZAware (normTweet "u" nowS
         ⟨some "hi", some "1", some "2024-01-02T00:00:00+00:00"⟩).published = true ∧
       (normTweet "u" nowS
         ⟨some "hi", some "1", some "2024-01-02T00:00:00+00:00"⟩).platform = "twitter") ∧
    (redEnvEpochOk redEnvC2 5 ∧
       normSubmission "x" ⟨"t", "body", "u", 1700000000⟩
         ∈ fetch_reddit_posts ["x"] redEnvC2 5 (some "cid") (some "sec") ∧
       parsesTZAware (normSubmission "x" ⟨"t", "body", "u", 1700000000⟩).published = true) ∧
    (normEntry "n" nowS ⟨some "t", some "l", some "s", none, some ⟨2024, 1, 2, 3, 4, 5⟩⟩
         ∈ fetch_rss_feeds [("n", "f")] rssEnvC2 5 nowS ∧
       parsesTZAware (normEntry "n" nowS
         ⟨some "t", some "l", some "s", none, some ⟨2024, 1, 2, 3, 4, 5⟩⟩).published = true) ∧
    (ghEnvTimesOk ghEnvC2 5 ∧
       (⟨"github", "o/r", "m", UrlField.str "u", "m", "2024-01-02T00:00:00+00:00"⟩ : Item)
         ∈ fetch_github_updates ["o/r"] ghEnvC2 5 nowS ∧
       parsesTZAware
         ((⟨"github", "o/r", "m", UrlField.str "u", "m",
            "2024-01-02T00:00:00+00:00"⟩ : Item)).published = true) :=
  ⟨⟨by decide, twEnvC2_ok,
    by decide,
    c2_amended.2.2.2.2.1 ["u"] twEnvC2 5 nowS (some "tok")
      (normTweet "u" nowS ⟨some "hi", some "1", some "2024-01-02T00:00:00+00:00"⟩)
      (by decide) twEnvC2_ok (by decide),
    c2_amended.1 ["u"] twEnvC2 5 nowS (some "tok")
      (normTweet "u" nowS ⟨some "hi", some "1", some "2024-01-02T00:00:00+00:00"⟩)
      (by decide)⟩,
   ⟨redEnvC2_ok,
    by decide,
    c2_amended.2.2.2.2.2.1 ["x"] redEnvC2 5 (some "cid") (some "sec")
      (normSubmission "x" ⟨"t", "body", "u", 1700000000⟩) redEnvC2_ok (by decide)⟩,
   ⟨by decide,
    c2_amended.2.2.2.2.2.2.1 [("n", "f")] rssEnvC2 5 nowS
      (normEntry "n" nowS ⟨some "t", some "l", some "s", none, some ⟨2024, 1, 2, 3, 4, 5⟩⟩)
      (by decide) (by decide)⟩,
   ⟨ghEnvC2_ok,
    by decide,
    c2_amended.2.2.2.2.2.2.2 ["o/r"] ghEnvC2 5 nowS
      ⟨"github", "o/r", "m", UrlField.str "u", "m", "2024-01-02T00:00:00+00:00"⟩
      (by decide) ghEnvC2_ok (by decide)⟩⟩

/-- C8 (witness for the amended theorem): a concrete two-item aware run. -/
theorem c8_amended_witness :
    (∀ i ∈ [itemAware, itemAware2], (sortKey nowDt i).offset.isSome = true) ∧
      (∃ ys, sortStep nowDt [itemAware, itemAware2] = Except.ok ys ∧
        ([itemAware, itemAware2]).Perm ys ∧
        ys.Pairwise (fun a b =>
          epochMicros (sortKey nowDt b) ≤ epochMicros (sortKey nowDt a))) :=
  ⟨by decide, c8_amended nowDt [itemAware, itemAware2] (by decide)⟩

end CryptoScraper
